import Mathlib

/-
Verification of the HybridModel training engine (src/model/HybridModel.cpp,
src/train_model.cpp): a shallow embedding of the tensor types, the minibatch
generator, the loss, the shape-reconciliation helpers, the forward and
backward engines and the Adam optimizer, together with theorems about them.

Doubles are modelled as exact rationals (ℚ).  The raw matrix arithmetic
primitives (the linalg collaborator), the per-layer cell math
(LSTMNetwork / MLP collaborators) and the activation functions are excluded
collaborators per the specification; they are modelled from the spec where a
concrete definition is needed, and theorems about the engines are stated for
arbitrary collaborator functions wherever possible.

C++ behaviour that raises (std::get on the wrong variant alternative,
std::invalid_argument) or is undefined (out-of-range vector indexing) is
modelled by Except.error, making every embedded operation total.
-/

namespace HybridModel

/-- Matrix: ordered rows of rationals, mirroring vector<vector<double>>. -/
abbrev Matrix : Type := List (List ℚ)

/-- Tensor3D: batch × time × feature, mirroring vector<vector<vector<double>>>. -/
abbrev Tensor3D : Type := List (List (List ℚ))

/-- variantTensor mirrors std::variant<Matrix, Tensor3D>; the first
alternative (Matrix) is the default-constructed one. -/
abbrev variantTensor : Type := Sum Matrix Tensor3D

/-- matrixDict mirrors std::map<std::string, Matrix>, as an association list.
The std::map key ordering is irrelevant to every claim; only lookup, insert
and default-construction semantics are used. -/
abbrev matrixDict : Type := List (String × Matrix)

/-- gradientDict mirrors std::map<std::string, variantTensor>. -/
abbrev gradientDict : Type := List (String × variantTensor)

/-- cacheTuple mirrors the ten-component LSTM per-timestep cache tuple.  Its
components are produced and consumed only by the excluded LSTMNetwork
collaborator and are never inspected by HybridModel code, so they are left
opaque to this development. -/
abbrev cacheTuple : Type := Unit

/-- LSTMCache mirrors
tuple<Tensor3D, Tensor3D, Tensor3D, tuple<vector<cacheTuple>, Tensor3D>>. -/
abbrev LSTMCache : Type := Tensor3D × Tensor3D × Tensor3D × (List cacheTuple × Tensor3D)

/-- One entry of the UnifiedCache: variant<LSTMCache, matrixDict>. -/
abbrev cacheEntry : Type := Sum LSTMCache matrixDict

/-- One entry of UnifiedGradients: variant<gradientDict, matrixDict>. -/
abbrev gradEntry : Type := Sum gradientDict matrixDict

/-- Association-list lookup, mirroring std::map::find. -/
def lookupKV {α : Type} (d : List (String × α)) (k : String) : Option α :=
  match d with
  | [] => none
  | (k₀, v₀) :: rest => if k₀ = k then some v₀ else lookupKV rest k

/-- Read with a default, mirroring std::map::operator[] when the mapped
value is immediately used (a missing key yields a default-constructed
value). -/
def getKV {α : Type} (d : List (String × α)) (k : String) (dflt : α) : α :=
  (lookupKV d k).getD dflt

/-- Insert-or-assign, mirroring std::map::operator[] followed by assignment. -/
def insertKV {α : Type} (d : List (String × α)) (k : String) (v : α) :
    List (String × α) :=
  match d with
  | [] => [(k, v)]
  | (k₀, v₀) :: rest =>
      if k₀ = k then (k₀, v) :: rest else (k₀, v₀) :: insertKV rest k v

/-- std::vector::operator[] out-of-range access is undefined behaviour in the
source; the total embedding maps it to an error. -/
def toE {α : Type} (o : Option α) : Except String α :=
  match o with
  | some a => Except.ok a
  | none => Except.error "index out of bounds"

/-- std::get<Tensor3D> on a variantTensor: throws bad_variant_access when the
Matrix alternative is held. -/
def getTensor (v : variantTensor) : Except String Tensor3D :=
  match v with
  | Sum.inr x => Except.ok x
  | Sum.inl _ => Except.error "bad variant access"

/-- std::get<Matrix> on a variantTensor. -/
def getMatrixV (v : variantTensor) : Except String Matrix :=
  match v with
  | Sum.inl x => Except.ok x
  | Sum.inr _ => Except.error "bad variant access"

/- ----------------------------------------------------------------------
linalg collaborator.  Modelled from the spec: "raw tensor/matrix arithmetic
primitives (elementwise ops, transpose, zero-matrix allocation)" are excluded
collaborators; they are modelled as the evident elementwise operations.  On
mismatched operand shapes the collaborator's behaviour is unspecified; the
model truncates to the common prefix (zipWith).
---------------------------------------------------------------------- -/

/-- Modelled from the spec: linalg::generateZeros. -/
def generateZeros (m n : Nat) : Matrix :=
  List.replicate m (List.replicate n 0)

/-- Modelled from the spec: linalg::add on two matrices (elementwise). -/
def madd (A B : Matrix) : Matrix :=
  List.zipWith (fun r s => List.zipWith (fun a b => a + b) r s) A B

/-- Modelled from the spec: linalg::subtract (elementwise). -/
def msub (A B : Matrix) : Matrix :=
  List.zipWith (fun r s => List.zipWith (fun a b => a - b) r s) A B

/-- Modelled from the spec: linalg::division on two matrices (elementwise). -/
def mdiv (A B : Matrix) : Matrix :=
  List.zipWith (fun r s => List.zipWith (fun a b => a / b) r s) A B

/-- Modelled from the spec: linalg::add of a matrix and a scalar. -/
def sadd (A : Matrix) (c : ℚ) : Matrix :=
  A.map (fun r => r.map (fun a => a + c))

/-- Modelled from the spec: linalg::scalarMultiply. -/
def smul (c : ℚ) (A : Matrix) : Matrix :=
  A.map (fun r => r.map (fun a => c * a))

/-- Modelled from the spec: linalg::division of a matrix by a scalar.  Over ℚ
division by zero yields 0 (the IEEE source would produce inf/NaN silently). -/
def sdiv (A : Matrix) (c : ℚ) : Matrix :=
  A.map (fun r => r.map (fun a => a / c))

/-- Modelled from the spec: linalg::pow with exponent 2.0 (elementwise square). -/
def msq (A : Matrix) : Matrix :=
  A.map (fun r => r.map (fun a => a * a))

/-- Modelled from the spec: scalar square root collaborator (std::sqrt).  The
real square root is not rational; every claim that touches this function
depends only on matrix shapes, so any scalar function of this type is a
faithful model.  This one takes integer square roots of numerator and
denominator. -/
def qsqrt (x : ℚ) : ℚ :=
  (Nat.sqrt x.num.toNat : ℚ) / (Nat.sqrt x.den : ℚ)

/-- Modelled from the spec: linalg::sqrt (elementwise square root). -/
def msqrt (A : Matrix) : Matrix :=
  A.map (fun r => r.map qsqrt)

/-- Modelled from the spec: matrix transpose collaborator (used only inside
the modelled Dense collaborator). -/
def transposeM (A : Matrix) : Matrix :=
  match A with
  | [] => []
  | r :: _ => (List.range r.length).map (fun j => A.map (fun row => row.getD j 0))

/- ----------------------------------------------------------------------
Adam hyperparameters (HybridModel.cpp lines 65-68).  The decimal double
literals are modelled as exact rationals; every claim involving them is
independent of the literals' binary rounding.
---------------------------------------------------------------------- -/

/-- beta1 = 0.9 (line 66). -/
def beta1 : ℚ := 9 / 10

/-- beta2 = 0.999 (line 67). -/
def beta2 : ℚ := 999 / 1000

/-- epsilon = 1e-8 (line 68). -/
def epsilon : ℚ := 1 / 100000000

/-- initial_t: the step counter t is declared with initializer 0
(line 65) and is modified nowhere except the post-increment at the end of
optimize (line 567). -/
def initial_t : Nat := 0

/- ----------------------------------------------------------------------
MSE (lines 113-123).
---------------------------------------------------------------------- -/

/-- The accumulation loop of MSE (lines 118-121): the loop index runs over
pred's positions and reads target at the same positions; the size guard at
line 114 ensures target has the same length, so the paired recursion is
exact.  std::pow(x, 2) is the square. -/
def sqErrSum : List ℚ → List ℚ → ℚ
  | p :: ps, t :: ts => (p - t) * (p - t) + sqErrSum ps ts
  | _, _ => 0

/-- MSE (lines 113-123): throws invalid_argument on a length mismatch,
otherwise returns the accumulated squared error divided by 2·size. -/
def MSE (pred target : List ℚ) : Except String ℚ :=
  if pred.length ≠ target.length then
    Except.error "Prediction and target sizes do not match"
  else
    Except.ok (sqErrSum pred target / (2 * (pred.length : ℚ)))

/- ----------------------------------------------------------------------
Shape reconciliation (lines 175-206).
---------------------------------------------------------------------- -/

/-- Per-example last-timestep extraction loop of the Tensor3D→Matrix
reshape_last_timestep (lines 181-187): throws invalid_argument on the first
example with an empty timestep sequence, otherwise keeps each example's last
timestep row. -/
def lastRows : Tensor3D → Except String Matrix
  | [] => Except.ok []
  | ex :: rest =>
      match ex.getLast? with
      | none => Except.error "Hidden state is empty"
      | some r => do
          let m ← lastRows rest
          Except.ok (r :: m)

/-- reshape_last_timestep, Tensor3D overload (lines 175-189):
hidden_state[0][0].size() is read before the loop (out of range when the
tensor or its first example is empty), then each example contributes its
last timestep. -/
def reshape_last_timestep (hidden_state : Tensor3D) : Except String Matrix := do
  let ex₀ ← toE (hidden_state.get? 0)
  let _hidden_units ← toE (ex₀.get? 0)
  lastRows hidden_state

/-- reshape_last_timestep, Matrix overload (lines 192-206): broadcasts each
example's row across TIMESTEPS timesteps, where TIMESTEPS is read from the
process-wide x_train (std::get<Tensor3D>(x_train)[0].size()); passed here
explicitly as the state's x_train field. -/
def reshape_last_timestep_mat (x_train : variantTensor) (hidden_state : Matrix) :
    Except String Tensor3D := do
  let _row₀ ← toE (hidden_state.get? 0)
  let X ← getTensor x_train
  let ex₀ ← toE (X.get? 0)
  let TIMESTEPS := ex₀.length
  Except.ok (hidden_state.map (fun row => List.replicate TIMESTEPS row))

/- ----------------------------------------------------------------------
Minibatch generation (lines 72-109).
---------------------------------------------------------------------- -/

/-- One (input-chunk, target-chunk) pair per loop iteration of
generate_minibatches (lines 93-106): the loop advances k by batch_size while
k < m and slices both shuffled sequences at [k, min(k+batch_size, m)).  The
recursion consumes the head explicitly, so it is structural; for
batch_size ≥ 1 it coincides with the source loop (for batch_size = 0 the
source loop does not terminate, and every claim assumes batch_size ≥ 1). -/
def make_minibatches (batch_size : Nat) :
    Tensor3D → Matrix → List (Tensor3D × Matrix)
  | [], _ => []
  | x :: xs, ys =>
      (x :: xs.take (batch_size - 1), ys.take batch_size) ::
        make_minibatches batch_size (xs.drop (batch_size - 1)) (ys.drop batch_size)
termination_by x _ => x.length
decreasing_by simp [List.length_drop]; omega

/-- generate_minibatches (lines 72-109).  The index permutation produced by
std::shuffle seeded with mt19937(seed) is passed explicitly: for every seed
std::shuffle yields some permutation of [0, m), and every claim quantifies
over that permutation.  The pre-allocations at lines 85 and 97 read
X[0].size() and X[0][0].size(): when X is empty or its first example has no
timesteps these reads are out of range, modelled as errors.  The allocated
shapes themselves are irrelevant — every allocated row is overwritten
wholesale by shuffled_X[i] = X[permutation[i]] and
shuffled_Y[i] = Y[permutation[i]] (lines 87-90, 100-103) — after which
contiguous chunks are cut (lines 93-106). -/
def generate_minibatches (permutation : List Nat) (X : Tensor3D) (Y : Matrix)
    (batch_size : Nat) : Except String (List (Tensor3D × Matrix)) := do
  let ex₀ ← toE (X.get? 0)
  let _row₀ ← toE (ex₀.get? 0)
  Except.ok (make_minibatches batch_size
    (permutation.map (fun i => X.getD i []))
    (permutation.map (fun i => Y.getD i [])))

/- ----------------------------------------------------------------------
Process-wide mutable state (anonymous namespace, lines 40-69), passed
explicitly.
---------------------------------------------------------------------- -/

/-- The process-wide mutable state of HybridModel (lines 40-69). -/
structure ModelState : Type where
  layer_types : List String
  layer_dims : List Int
  layer_params : List matrixDict
  learning_rate : ℚ
  cache : List cacheEntry
  finalPrediction : Matrix
  accumulated_loss : ℚ
  x_train : variantTensor
  y_train : Matrix
  BATCH_SIZE : Int
  n_hidden : Int
  grads : List gradEntry
  Adam_params : List (List matrixDict)
  t : Nat

/- ----------------------------------------------------------------------
Activation and layer collaborators (activations.h, LSTMNetwork.h, MLP.h are
excluded collaborators per the specification).  The engine theorems are
stated for arbitrary collaborator functions of the right type; the concrete
models below are used only to instantiate witnesses and counterexamples, and
those depend only on the structure of the returned bundles (which entries
exist), never on the cell math.
---------------------------------------------------------------------- -/

/-- Modelled from the spec: activations::relu ("elementwise nonlinearity"). -/
def relu (x : ℚ) : ℚ := max 0 x

/-- Modelled from the spec: activations::linear ("linear variant is identity"). -/
def linear (x : ℚ) : ℚ := x

/-- Modelled from the spec: the recurrent forward collaborator
LSTMNetwork::lstm_forward, which "produces a new hidden-state tensor and a
propagated-input tensor for the next recurrent layer, plus a cache bundle".
The recurrent cell math is excluded; the hidden-state and propagated-input
components are modelled as the input sequence itself (shape-compatible for
equal widths), and the per-timestep sub-cache list is left empty. -/
def lstm_forward_model (x : Tensor3D) (_a0 : Matrix) (_params : matrixDict)
    (_layer : Nat) : LSTMCache :=
  (x, x, x, ([], x))

/-- Modelled from the spec: the dense collaborator MLP::Dense, which "applies
the corresponding elementwise nonlinearity after the affine transform" and
returns the activation together with a cache dictionary of pre/post
activation matrices.  Its key-naming convention is internal to the excluded
collaborator. -/
def Dense_model (a_in : Matrix) (params : matrixDict) (activation : ℚ → ℚ)
    (layer : Nat) (_first_mlp : Bool) : Matrix × matrixDict :=
  let W := getKV params ("W" ++ toString layer) []
  let b := getKV params ("b" ++ toString layer) []
  let Z := madd (a_in.map (fun row => (transposeM W).map (fun col =>
    (List.zipWith (fun x y => x * y) row col).sum))) b
  let A := Z.map (fun r => r.map activation)
  (A, [("Z" ++ toString layer, Z), ("A" ++ toString layer, A)])

/-- Modelled from the spec: the recurrent backward collaborator
LSTMNetwork::lstm_backprop ("runs the full-sequence backward-through-time
procedure, producing parameter gradients and a gradient with respect to the
initial hidden state").  Only the presence of the "da0"-keyed Tensor3D entry
is ever inspected by HybridModel code. -/
def lstm_backprop_model (dA : Tensor3D) (_cache : List cacheTuple × Tensor3D)
    (layer : Nat) : gradientDict :=
  [("da0" ++ toString layer, Sum.inr dA)]

/-- Modelled from the spec: the dense backward collaborator
MLP::mlp_backward ("computes this layer's parameter gradients ... via the
standard affine+activation backward formula"). -/
def mlp_backward_model (_a_in : Matrix) (dA : Matrix) (_y : Matrix)
    (_cache : matrixDict) (layer : Nat) (_activation : ℚ → ℚ) : matrixDict :=
  [("dW" ++ toString layer, dA), ("db" ++ toString layer, dA)]

/- ----------------------------------------------------------------------
Forward engine (lines 208-315).
---------------------------------------------------------------------- -/

/-- Append-or-replace for the unified cache/gradient sequences: the source
replaces at index i when the sequence has already reached length L and
pushes otherwise (e.g. lines 241-245, 392-396).  The replacement index is
the source's (off by one from the slot that was pushed for this layer);
List.set out of range leaves the list unchanged where the C++ write would be
undefined. -/
def pushOrSet (L : Nat) (entries : List α) (i : Nat) (e : α) : List α :=
  if entries.length = L then entries.set i e else entries ++ [e]

/-- Loop-carried locals of forward_prop (lines 221-228). -/
structure FwdSt : Type where
  cache : List cacheEntry
  a_out : Matrix
  first_mlp_encountered : Bool
  new_x_state : Tensor3D
  new_hidden_state : Tensor3D

/-- One iteration of the forward loop (lines 232-312) for layer index i. -/
def forwardStep
    (lstm_forward : Tensor3D → Matrix → matrixDict → Nat → LSTMCache)
    (Dense : Matrix → matrixDict → (ℚ → ℚ) → Nat → Bool → Matrix × matrixDict)
    (layer_types : List String) (layer_params : List matrixDict)
    (x_train : variantTensor) (a_initial : Matrix)
    (i : Nat) (fs : FwdSt) : Except String FwdSt := do
  let L := layer_types.length
  let lt := layer_types.getD (i - 1) ""
  if lt = "LSTM" then do
    let params ← toE (layer_params.get? (i - 1))
    if i = 1 then do
      let X ← getTensor x_train
      let tup := lstm_forward X a_initial params i
      Except.ok { fs with
        new_x_state := tup.2.2.2.2
        new_hidden_state := tup.1
        cache := pushOrSet L fs.cache i (Sum.inl tup) }
    else do
      let a0 ← reshape_last_timestep fs.new_hidden_state
      let tup := lstm_forward fs.new_x_state a0 params i
      Except.ok { fs with
        new_x_state := tup.2.2.2.2
        new_hidden_state := tup.1
        cache := pushOrSet L fs.cache i (Sum.inl tup) }
  else if lt = "Relu" then do
    if i = 1 then
      -- the guard at line 263 evaluates layer_types[i-2] before the
      -- short-circuited i != 1, an out-of-range access when i = 1
      Except.error "index out of bounds"
    else do
      let (a_in, first) ←
        if layer_types.getD (i - 2) "" = "LSTM" then do
          let m ← reshape_last_timestep fs.new_hidden_state
          Except.ok (m, true)
        else
          Except.ok (fs.a_out, false)
      let params ← toE (layer_params.get? (i - 1))
      let p := Dense a_in params relu i first
      Except.ok { fs with
        a_out := p.1
        first_mlp_encountered := first
        cache := pushOrSet L fs.cache i (Sum.inr p.2) }
  else if lt = "Linear" then do
    -- the guard at line 295 compares layer_types[i-1] (the current layer's
    -- own type) against "LSTM" inside the Linear branch
    let (a_in, first) ←
      if layer_types.getD (i - 1) "" = "LSTM" ∧ ¬ i = 1 then do
        let m ← reshape_last_timestep fs.new_hidden_state
        Except.ok (m, true)
      else
        Except.ok (fs.a_out, false)
    let params ← toE (layer_params.get? (i - 1))
    let p := Dense a_in params linear i first
    Except.ok { fs with
      a_out := p.1
      first_mlp_encountered := first
      cache := pushOrSet L fs.cache i (Sum.inr p.2) }
  else
    Except.ok fs

/-- The forward loop over layer indices 1..L (line 232). -/
def forwardLoop
    (lstm_forward : Tensor3D → Matrix → matrixDict → Nat → LSTMCache)
    (Dense : Matrix → matrixDict → (ℚ → ℚ) → Nat → Bool → Matrix × matrixDict)
    (layer_types : List String) (layer_params : List matrixDict)
    (x_train : variantTensor) (a_initial : Matrix) :
    List Nat → FwdSt → Except String FwdSt
  | [], fs => Except.ok fs
  | i :: rest, fs => do
      let fs' ← forwardStep lstm_forward Dense layer_types layer_params
        x_train a_initial i fs
      forwardLoop lstm_forward Dense layer_types layer_params x_train
        a_initial rest fs'

/-- forward_prop (lines 208-315).  The x_train parameter shadows the global;
lines 216-218 read layer_params[0]["Wy1"] and take its column count, line 225
builds the zero initial hidden state from std::get<Tensor3D>(x_train) (which
throws when the input is the Matrix alternative), then the loop runs and
line 314 stores the final prediction. -/
def forward_prop
    (lstm_forward : Tensor3D → Matrix → matrixDict → Nat → LSTMCache)
    (Dense : Matrix → matrixDict → (ℚ → ℚ) → Nat → Bool → Matrix × matrixDict)
    (st : ModelState) (x_train : variantTensor) : Except String ModelState := do
  let p₀ ← toE (st.layer_params.get? 0)
  let Wy := getKV p₀ "Wy1" []
  let row₀ ← toE (Wy.get? 0)
  let n_a := row₀.length
  let X ← getTensor x_train
  let a_initial := generateZeros X.length n_a
  let fs ← forwardLoop lstm_forward Dense st.layer_types st.layer_params
    x_train a_initial ((List.range st.layer_types.length).map (fun i => i + 1))
    ⟨st.cache, [], false, [], []⟩
  Except.ok { st with cache := fs.cache, finalPrediction := fs.a_out }

/- ----------------------------------------------------------------------
Backward engine (lines 342-423).
---------------------------------------------------------------------- -/

/-- The seed-gradient computation of back_prop (lines 344-361): L is the
layer count, m the example count of the process-wide x_train
(std::get<Tensor3D> throws on the Matrix alternative), the last layer's
cache entry must hold the matrixDict alternative, the prediction is looked
up under key "A"+(L-1) (when absent, dA_matrix keeps its default empty
value), and the seed is (prediction − y_train) / m elementwise. -/
def back_prop_seed (st : ModelState) : Except String Matrix := do
  let X ← getTensor st.x_train
  let m := X.length
  match st.layer_types.length with
  | 0 => Except.error "index out of bounds"
  | L' + 1 => do
      let entry ← toE (st.cache.get? L')
      let layer_cache ← (match entry with
        | Sum.inr d => Except.ok d
        | Sum.inl _ => Except.error "bad variant access")
      let dA_matrix := (lookupKV layer_cache ("A" ++ toString L')).getD []
      Except.ok (sdiv (msub dA_matrix st.y_train) (m : ℚ))

/-- Loop-carried locals of back_prop (lines 349, 363, plus the gradient
sequence). -/
structure BackSt : Type where
  grads : List gradEntry
  dA_matrix : Matrix
  dA_tensor : Tensor3D

/-- One iteration of the backward loop (lines 365-422) for layer index
layer, counting down from L. -/
def backStep
    (lstm_backprop : Tensor3D → (List cacheTuple × Tensor3D) → Nat → gradientDict)
    (mlp_backward : Matrix → Matrix → Matrix → matrixDict → Nat → (ℚ → ℚ) → matrixDict)
    (st : ModelState) (a_in_matrix : Matrix) (layer : Nat) (bs : BackSt) :
    Except String BackSt := do
  let L := st.layer_types.length
  let lt := st.layer_types.getD (layer - 1) ""
  if lt = "LSTM" then
    if layer = L then
      Except.ok bs
    else do
      -- line 372: the guard compares layer_types[layer-1] (the current
      -- layer's own type, known to be "LSTM" here) against Relu/Linear
      let dA_tensor₁ ←
        if lt = "Relu" ∨ lt = "Linear" then
          reshape_last_timestep_mat st.x_train bs.dA_matrix
        else
          Except.ok bs.dA_tensor
      match st.cache.get? layer with
      | none => Except.error "index out of bounds"
      | some (Sum.inr _) => Except.ok { bs with dA_tensor := dA_tensor₁ }
      | some (Sum.inl lstm_cache) => do
          let gd := lstm_backprop dA_tensor₁
            (lstm_cache.2.2.2.1, lstm_cache.2.2.2.2) layer
          let dA_tensor₂ ← (match lookupKV gd ("da0" ++ toString layer) with
            | some (Sum.inr t3) => Except.ok t3
            | some (Sum.inl _) => Except.error "bad variant access"
            | none => Except.error "bad variant access")
          Except.ok { bs with
            dA_tensor := dA_tensor₂
            grads := pushOrSet L bs.grads layer (Sum.inl gd) }
  else if lt = "Relu" ∨ lt = "Linear" then
    if layer = L then
      Except.ok bs
    else do
      -- line 405: the guard compares layer_types[layer-1] (the current
      -- layer's own type, known to be Relu or Linear here) against "LSTM"
      let dA_matrix₁ ←
        if lt = "LSTM" then
          reshape_last_timestep bs.dA_tensor
        else
          Except.ok bs.dA_matrix
      let cd ← (match st.cache.get? (layer - 1) with
        | some (Sum.inr d) => Except.ok d
        | some (Sum.inl _) => Except.error "bad variant access"
        | none => Except.error "index out of bounds")
      let mg := mlp_backward a_in_matrix dA_matrix₁ st.y_train cd layer
        (if lt = "Relu" then relu else linear)
      Except.ok { bs with
        dA_matrix := dA_matrix₁
        grads := pushOrSet L bs.grads layer (Sum.inr mg) }
  else
    Except.ok bs

/-- The backward loop over layer indices L..1 (line 365). -/
def backLoop
    (lstm_backprop : Tensor3D → (List cacheTuple × Tensor3D) → Nat → gradientDict)
    (mlp_backward : Matrix → Matrix → Matrix → matrixDict → Nat → (ℚ → ℚ) → matrixDict)
    (st : ModelState) (a_in_matrix : Matrix) :
    List Nat → BackSt → Except String BackSt
  | [], bs => Except.ok bs
  | layer :: rest, bs => do
      let bs' ← backStep lstm_backprop mlp_backward st a_in_matrix layer bs
      backLoop lstm_backprop mlp_backward st a_in_matrix rest bs'

/-- back_prop (lines 342-423): computes a_in_matrix from the process-wide
x_train (line 346), seeds the gradient from the last layer's cache entry
(lines 349-361), walks the layers from L down to 1 and stores the resulting
gradient sequence. -/
def back_prop
    (lstm_backprop : Tensor3D → (List cacheTuple × Tensor3D) → Nat → gradientDict)
    (mlp_backward : Matrix → Matrix → Matrix → matrixDict → Nat → (ℚ → ℚ) → matrixDict)
    (st : ModelState) : Except String ModelState := do
  let L := st.layer_types.length
  let X ← getTensor st.x_train
  let a_in_matrix ← reshape_last_timestep X
  let dA₀ ← back_prop_seed st
  let bs ← backLoop lstm_backprop mlp_backward st a_in_matrix
    (((List.range L).map (fun i => i + 1)).reverse) ⟨st.grads, dA₀, []⟩
  Except.ok { st with grads := bs.grads }

/- ----------------------------------------------------------------------
Backward engine with the self-referential reconciliation branches removed.
The claim that the two reshape branches guarded by comparisons of
layer_types[layer-1] against the enclosing case's own type are never
executed is formalised as: back_prop equals this pruned variant, in which
those two branches are deleted outright, for every collaborator pair, state
and input.
---------------------------------------------------------------------- -/

/-- backStep with the two self-referentially guarded reshape branches
(lines 371-374 and 404-407) deleted; otherwise identical to backStep. -/
def backStepPruned
    (lstm_backprop : Tensor3D → (List cacheTuple × Tensor3D) → Nat → gradientDict)
    (mlp_backward : Matrix → Matrix → Matrix → matrixDict → Nat → (ℚ → ℚ) → matrixDict)
    (st : ModelState) (a_in_matrix : Matrix) (layer : Nat) (bs : BackSt) :
    Except String BackSt := do
  let L := st.layer_types.length
  let lt := st.layer_types.getD (layer - 1) ""
  if lt = "LSTM" then
    if layer = L then
      Except.ok bs
    else do
      match st.cache.get? layer with
      | none => Except.error "index out of bounds"
      | some (Sum.inr _) => Except.ok bs
      | some (Sum.inl lstm_cache) => do
          let gd := lstm_backprop bs.dA_tensor
            (lstm_cache.2.2.2.1, lstm_cache.2.2.2.2) layer
          let dA_tensor₂ ← (match lookupKV gd ("da0" ++ toString layer) with
            | some (Sum.inr t3) => Except.ok t3
            | some (Sum.inl _) => Except.error "bad variant access"
            | none => Except.error "bad variant access")
          Except.ok { bs with
            dA_tensor := dA_tensor₂
            grads := pushOrSet L bs.grads layer (Sum.inl gd) }
  else if lt = "Relu" ∨ lt = "Linear" then
    if layer = L then
      Except.ok bs
    else do
      let cd ← (match st.cache.get? (layer - 1) with
        | some (Sum.inr d) => Except.ok d
        | some (Sum.inl _) => Except.error "bad variant access"
        | none => Except.error "index out of bounds")
      let mg := mlp_backward a_in_matrix bs.dA_matrix st.y_train cd layer
        (if lt = "Relu" then relu else linear)
      Except.ok { bs with
        grads := pushOrSet L bs.grads layer (Sum.inr mg) }
  else
    Except.ok bs

/-- The backward loop built from the pruned step. -/
def backLoopPruned
    (lstm_backprop : Tensor3D → (List cacheTuple × Tensor3D) → Nat → gradientDict)
    (mlp_backward : Matrix → Matrix → Matrix → matrixDict → Nat → (ℚ → ℚ) → matrixDict)
    (st : ModelState) (a_in_matrix : Matrix) :
    List Nat → BackSt → Except String BackSt
  | [], bs => Except.ok bs
  | layer :: rest, bs => do
      let bs' ← backStepPruned lstm_backprop mlp_backward st a_in_matrix layer bs
      backLoopPruned lstm_backprop mlp_backward st a_in_matrix rest bs'

/-- back_prop built from the pruned step. -/
def back_prop_pruned
    (lstm_backprop : Tensor3D → (List cacheTuple × Tensor3D) → Nat → gradientDict)
    (mlp_backward : Matrix → Matrix → Matrix → matrixDict → Nat → (ℚ → ℚ) → matrixDict)
    (st : ModelState) : Except String ModelState := do
  let L := st.layer_types.length
  let X ← getTensor st.x_train
  let a_in_matrix ← reshape_last_timestep X
  let dA₀ ← back_prop_seed st
  let bs ← backLoopPruned lstm_backprop mlp_backward st a_in_matrix
    (((List.range L).map (fun i => i + 1)).reverse) ⟨st.grads, dA₀, []⟩
  Except.ok { st with grads := bs.grads }

/- ----------------------------------------------------------------------
Adam optimizer (lines 425-568).
---------------------------------------------------------------------- -/

/-- The per-gate key stems of an LSTM layer, in the order the source
handles them (lines 485-494): forget, input, candidate, output, prediction,
weight before bias within each pair. -/
def lstmGradKeys : List String := ["Wf", "bf", "Wi", "bi", "Wc", "bc", "Wo", "bo", "Wy", "by"]

/-- The key stems of a feed-forward layer (lines 547-548). -/
def mlpGradKeys : List String := ["W", "b"]

/-- Zero matrix shaped like the parameter stored under key k (the
generateZeros calls of init_Adam, e.g. line 435).  The source reads
params[k][0].size(); on an absent key or an empty matrix that read is
out of range, modelled as width 0. -/
def zerosLike (pd : matrixDict) (k : String) : Matrix :=
  let M := getKV pd k []
  generateZeros M.length (M.getD 0 []).length

/-- init_Adam (lines 425-473): resizes Adam_params to the layer count and,
for layer i (1-based), fills the momentum dictionary v and the RMSP
dictionary s with zero matrices shaped like that layer's parameters, under
keys "d"+stem+i; Adam_params[i-1] = {v, s}.  A layer of unrecognized type
keeps empty v and s. -/
def init_Adam (st : ModelState) : ModelState :=
  { st with Adam_params := (List.range st.layer_types.length).map (fun i₀ =>
      let i := i₀ + 1
      let lt := st.layer_types.getD i₀ ""
      let pd := st.layer_params.getD i₀ []
      let stems := if lt = "LSTM" then lstmGradKeys
        else if lt = "Relu" ∨ lt = "Linear" then mlpGradKeys
        else []
      let v := stems.map (fun κ =>
        ("d" ++ κ ++ toString i, zerosLike pd (κ ++ toString i)))
      [v, v]) }

/-- std::get<Matrix>(grad_map[k]): operator[] default-constructs the variant
(Matrix alternative, empty) when k is absent, so the get succeeds with an
empty matrix; a stored Tensor3D alternative makes it throw. -/
def gradMatrix (gm : gradientDict) (k : String) : Except String Matrix :=
  match lookupKV gm k with
  | none => Except.ok []
  | some (Sum.inl m) => Except.ok m
  | some (Sum.inr _) => Except.error "bad variant access"

/-- The four-step Adam update for one parameter matrix, exactly the per-key
lines of optimize (e.g. 485/497/509/521/533 for the key "Wf"):
momentum, bias-corrected momentum, RMSP, bias-corrected RMSP, parameter
update.  Returns (new v entry, new s entry, new parameter). -/
def adamStep (learning_rate : ℚ) (t : Nat) (g v s W : Matrix) :
    Matrix × Matrix × Matrix :=
  let v' := madd (smul beta1 v) (smul (1 - beta1) g)
  let v_corrected := sdiv v' (1 - beta1 ^ t)
  let s' := madd (smul beta2 s) (smul (1 - beta2) (msq g))
  let s_corrected := sdiv s' (1 - beta2 ^ t)
  let W' := msub W (mdiv (smul learning_rate v_corrected)
    (sadd (msqrt s_corrected) epsilon))
  (v', s', W')

/-- The per-layer body of optimize for one key stem list: for each stem κ the
gradient key and parameter key carry suffix l+1 (the source consistently
uses std::to_string(l+1) inside the iteration for layer l), the gradient is
read from grad_map, the moments from the local v and s copies, the parameter
from layer_params[l-1], and the results are written back.  The source runs
the four update phases key-by-phase (all momenta, then all corrections, ...);
the per-key chains are independent (all keys distinct), so the per-key fusion
here is extensionally identical, including which absent-or-mistyped gradient
key fails first. -/
def optimizeKeys (learning_rate : ℚ) (t : Nat) (l : Nat) (gm : gradientDict) :
    List String → matrixDict → matrixDict → matrixDict →
    Except String (matrixDict × matrixDict × matrixDict)
  | [], v, s, pd => Except.ok (v, s, pd)
  | κ :: rest, v, s, pd => do
      let gkey := "d" ++ κ ++ toString (l + 1)
      let pkey := κ ++ toString (l + 1)
      let g ← gradMatrix gm gkey
      let r := adamStep learning_rate t g (getKV v gkey []) (getKV s gkey [])
        (getKV pd pkey [])
      optimizeKeys learning_rate t l gm rest (insertKV v gkey r.1)
        (insertKV s gkey r.2.1) (insertKV pd pkey r.2.2)

/-- One iteration of the optimize loop (lines 476-566) for layer l:
reads Adam_params[l][0] and Adam_params[l][1] (lines 477-478 — index l, not
l-1), branches on layer_types[l-1], extracts the gradientDict alternative of
grads.grads[l-1] (throws on the matrixDict alternative), updates the local
moment copies and layer_params[l-1].  The local copies v and s are never
written back to Adam_params, exactly as in the source. -/
def optimizeStep (st : ModelState) (l : Nat) : Except String ModelState := do
  let vs ← toE (st.Adam_params.get? l)
  let v ← toE (vs.get? 0)
  let s ← toE (vs.get? 1)
  let lt := st.layer_types.getD (l - 1) ""
  if lt = "LSTM" then do
    let gm ← (match st.grads.get? (l - 1) with
      | some (Sum.inl g) => Except.ok g
      | some (Sum.inr _) => Except.error "bad variant access"
      | none => Except.error "index out of bounds")
    let pd ← toE (st.layer_params.get? (l - 1))
    let r ← optimizeKeys st.learning_rate st.t l gm lstmGradKeys v s pd
    Except.ok { st with layer_params := st.layer_params.set (l - 1) r.2.2 }
  else if lt = "Relu" ∨ lt = "Linear" then do
    let gm ← (match st.grads.get? (l - 1) with
      | some (Sum.inl g) => Except.ok g
      | some (Sum.inr _) => Except.error "bad variant access"
      | none => Except.error "index out of bounds")
    let pd ← toE (st.layer_params.get? (l - 1))
    let r ← optimizeKeys st.learning_rate st.t l gm mlpGradKeys v s pd
    Except.ok { st with layer_params := st.layer_params.set (l - 1) r.2.2 }
  else
    Except.ok st

/-- The optimize loop over layer indices 1..L (line 476). -/
def optimizeLoop : List Nat → ModelState → Except String ModelState
  | [], st => Except.ok st
  | l :: rest, st => do
      let st' ← optimizeStep st l
      optimizeLoop rest st'

/-- optimize (lines 475-568): the per-layer loop followed by the
post-increment of the step counter t (line 567). -/
def optimize (st : ModelState) : Except String ModelState := do
  let st' ← optimizeLoop ((List.range st.layer_types.length).map (fun i => i + 1)) st
  Except.ok { st' with t := st'.t + 1 }

/-- The parameter keys written by the optimize iteration for layer l, given
that layer's type: stem concatenated with l+1 (lines 533-542, 563-564). -/
def stepParamKeys (lt : String) (l : Nat) : List String :=
  if lt = "LSTM" then lstmGradKeys.map (fun κ => κ ++ toString (l + 1))
  else if lt = "Relu" ∨ lt = "Linear" then mlpGradKeys.map (fun κ => κ ++ toString (l + 1))
  else []

/- ----------------------------------------------------------------------
Concrete states and claim-side definitions used by the theorems below.
---------------------------------------------------------------------- -/

/-- The seed gradient as the claim words it: (prediction − target) divided
by the number of examples in the current minibatch, i.e. the prediction's
row count. -/
def seed_claimed (prediction target : Matrix) : Matrix :=
  sdiv (msub prediction target) (prediction.length : ℚ)

/-- A concrete state in which the stored dataset has 4 examples while the
cached prediction of the current minibatch has 2 rows. -/
def stC1 : ModelState :=
  { layer_types := ["LSTM", "Linear"], layer_dims := [1, 1], layer_params := [],
    learning_rate := 0,
    cache := [Sum.inl ([], [], [], ([], [])), Sum.inr [("A1", [[8], [8]])]],
    finalPrediction := [], accumulated_loss := 0,
    x_train := Sum.inr [[[1]], [[2]], [[3]], [[4]]],
    y_train := [[0], [0], [0], [0]], BATCH_SIZE := 2, n_hidden := 1,
    grads := [], Adam_params := [], t := 0 }

/-- A state with an empty architecture, on which optimize succeeds. -/
def stC2 : ModelState :=
  { layer_types := [], layer_dims := [], layer_params := [], learning_rate := 0,
    cache := [], finalPrediction := [], accumulated_loss := 0,
    x_train := Sum.inl [], y_train := [], BATCH_SIZE := 0, n_hidden := 0,
    grads := [], Adam_params := [], t := 0 }

/-- A concrete one-layer state for the C10 witness. -/
def stC10 : ModelState :=
  { layer_types := ["Linear"], layer_dims := [1], layer_params := [[("W1", [[5]])]],
    learning_rate := 0, cache := [], finalPrediction := [], accumulated_loss := 0,
    x_train := Sum.inl [], y_train := [], BATCH_SIZE := 0, n_hidden := 0,
    grads := [], Adam_params := [], t := 0 }

/-- A two-layer LSTM→Linear state with a one-example, one-timestep input. -/
def stC6 : ModelState :=
  { layer_types := ["LSTM", "Linear"], layer_dims := [1, 1],
    layer_params := [[("Wy1", [[1]])], []], learning_rate := 0,
    cache := [], finalPrediction := [], accumulated_loss := 0,
    x_train := Sum.inr [[[7]]], y_train := [[0]], BATCH_SIZE := 1, n_hidden := 1,
    grads := [], Adam_params := [], t := 0 }

/-- A fresh two-layer LSTM→Linear state before its first forward pass. -/
def stC3 : ModelState :=
  { layer_types := ["LSTM", "Linear"], layer_dims := [1, 1],
    layer_params := [[("Wy1", [[1]])], [("W2", [[1]]), ("b2", [[0]])]],
    learning_rate := 0, cache := [], finalPrediction := [], accumulated_loss := 0,
    x_train := Sum.inr [[[1]]], y_train := [[0]], BATCH_SIZE := 1, n_hidden := 1,
    grads := [], Adam_params := [], t := 0 }

/-- The state after the concrete forward+backward run on stC3. -/
def stC3' : ModelState :=
  { stC3 with
    cache := [Sum.inl ([[[1]]], [[[1]]], [[[1]]], ([], [[[1]]])),
      Sum.inr [("Z2", []), ("A2", [])]],
    finalPrediction := [] }

/-- A concrete one-layer state on which optimize succeeds: Adam_params has a
spare entry so the off-by-one read stays in bounds, and the gradient entry
holds the (empty) gradientDict alternative. -/
def stC4 : ModelState :=
  { layer_types := ["Linear"], layer_dims := [1],
    layer_params := [[("W1", [[5]])]], learning_rate := 1,
    cache := [], finalPrediction := [], accumulated_loss := 0,
    x_train := Sum.inl [], y_train := [], BATCH_SIZE := 1, n_hidden := 0,
    grads := [Sum.inl []], Adam_params := [[[], []], [[], []]], t := 1 }

/-- The state optimize produces from stC4. -/
def stC4' : ModelState :=
  { stC4 with layer_params := [[("W1", [[5]]), ("W2", []), ("b2", [])]], t := 2 }

/-- The partition properties C5 claims of a minibatch sequence, stated for
an arbitrary index permutation (the one std::shuffle derives from the
seed): the chunked inputs concatenate to the shuffled inputs, the chunked
targets to the identically shuffled targets, both are permutations of the
dataset (each example exactly once), all chunks except possibly the last
have exactly batch_size examples, and the last has m mod batch_size of them
when batch_size does not divide m. -/
def minibatch_partition_spec (mbs : List (Tensor3D × Matrix))
    (permutation : List Nat) (X : Tensor3D) (Y : Matrix) (b : Nat) : Prop :=
  ((mbs.map Prod.fst).flatten = permutation.map (fun i => X.getD i []))
  ∧ ((mbs.map Prod.snd).flatten = permutation.map (fun i => Y.getD i []))
  ∧ ((mbs.map Prod.fst).flatten).Perm X
  ∧ ((mbs.map Prod.snd).flatten).Perm Y
  ∧ ∃ cs c, mbs = cs ++ [c]
      ∧ (∀ pr ∈ cs, pr.1.length = b)
      ∧ (¬ (b ∣ X.length) → c.1.length = X.length % b)
      ∧ ((b ∣ X.length) → c.1.length = b)

/- ----------------------------------------------------------------------
General helper lemmas.
---------------------------------------------------------------------- -/

/-- Peel one bind off a successful Except computation. -/
theorem bindOk {α β : Type} {e : Except String α} {f : α → Except String β} {b : β}
    (h : (e >>= f) = Except.ok b) : ∃ a, e = Except.ok a ∧ f a = Except.ok b := by
  cases e with
  | error msg => exact absurd h (by simp [Bind.bind, Except.bind])
  | ok a => exact ⟨a, rfl, by simpa [Bind.bind, Except.bind] using h⟩

/-- A successful toE names the indexed element. -/
theorem toE_ok {α : Type} {o : Option α} {a : α} (h : toE o = Except.ok a) :
    o = some a := by
  cases o with
  | none => simp [toE] at h
  | some x => simpa [toE] using h

/-- Inserting under one key leaves lookups of every other key unchanged. -/
theorem lookupKV_insertKV_ne {α : Type} (d : List (String × α)) (k k' : String)
    (v : α) (hne : ¬ k' = k) :
    lookupKV (insertKV d k v) k' = lookupKV d k' := by
  induction d with
  | nil =>
      simp only [insertKV, lookupKV]
      rw [if_neg (fun h : k = k' => hne h.symm)]
  | cons p rest ih =>
      obtain ⟨k₀, v₀⟩ := p
      by_cases h₀ : k₀ = k
      · subst h₀
        simp only [insertKV, if_pos rfl, lookupKV]
        rw [if_neg (fun h => hne h.symm), if_neg (fun h => hne h.symm)]
      · simp only [insertKV, if_neg h₀, lookupKV]
        by_cases h₁ : k₀ = k'
        · simp [h₁]
        · simp [h₁, ih]

/-- Reading every index below the length reproduces the list. -/
theorem map_getD_range {α : Type} (X : List α) (d : α) :
    (List.range X.length).map (fun i => X.getD i d) = X := by
  induction X with
  | nil => simp
  | cons x xs ih =>
      rw [List.length_cons, List.range_succ_eq_map, List.map_cons, List.map_map]
      have hc : ((fun i => (x :: xs).getD i d) ∘ Nat.succ) = fun i => xs.getD i d := by
        funext i
        simp
      rw [hc, ih]
      simp

/- ----------------------------------------------------------------------
Claim C8: the MSE loss.
---------------------------------------------------------------------- -/

/-- The accumulation loop equals the zipWith formulation. -/
theorem sqErrSum_eq_zipWith (p t : List ℚ) :
    sqErrSum p t = (List.zipWith (fun a b => (a - b) * (a - b)) p t).sum := by
  induction p generalizing t with
  | nil => cases t <;> simp [sqErrSum]
  | cons a p ih => cases t <;> simp [sqErrSum, ih]

/-- The accumulated squared error of a vector against itself is zero. -/
theorem sqErrSum_self (p : List ℚ) : sqErrSum p p = 0 := by
  induction p with
  | nil => simp [sqErrSum]
  | cons a p ih => simp [sqErrSum, ih]

/-- Claim C8: MSE raises its shape-mismatch error exactly when the two
vectors have different lengths; on equal lengths it returns the sum of
squared differences divided by 2·N where N is the flattened element count;
and MSE of any nonempty vector against itself is 0.  (For empty vectors the
source would compute 0.0/0, an IEEE NaN outside this exact-arithmetic
embedding, so the self-loss conjunct assumes a nonempty vector.) -/
theorem claim_C8 :
    (∀ p t : List ℚ, (∃ e, MSE p t = Except.error e) ↔ ¬ p.length = t.length)
    ∧ (∀ p t : List ℚ, p.length = t.length →
        MSE p t = Except.ok
          ((List.zipWith (fun a b => (a - b) * (a - b)) p t).sum
            / (2 * (p.length : ℚ))))
    ∧ (∀ p : List ℚ, ¬ p = [] → MSE p p = Except.ok 0) := by
  refine ⟨fun p t => ?_, fun p t h => ?_, fun p hp => ?_⟩
  · constructor
    · rintro ⟨e, he⟩ hlen
      simp [MSE, hlen] at he
    · intro hlen
      exact ⟨"Prediction and target sizes do not match", by simp [MSE, hlen]⟩
  · simp only [MSE]
    rw [if_neg (not_not_intro h), sqErrSum_eq_zipWith]
  · simp [MSE, sqErrSum_self]

/-- Witness for C8 at the concrete vectors [3] and [3]. -/
theorem claim_C8_witness :
    MSE [(3 : ℚ)] [3] = Except.ok
      ((List.zipWith (fun a b => (a - b) * (a - b)) [(3 : ℚ)] [3]).sum / (2 * (1 : ℚ)))
    ∧ MSE [(3 : ℚ)] [3] = Except.ok 0 := by
  constructor
  · simpa using claim_C8.2.1 [(3 : ℚ)] [3] rfl
  · exact claim_C8.2.2 [(3 : ℚ)] (by simp)

/- ----------------------------------------------------------------------
Claim C7: composing the two reshape overloads.
---------------------------------------------------------------------- -/

/-- lastRows succeeds on a tensor of all-nonempty examples and keeps each
example's last row. -/
theorem lastRows_ok (X : Tensor3D) (h : ∀ ex ∈ X, ¬ ex = []) :
    lastRows X = Except.ok (X.map (fun ex => ex.getLastD [])) := by
  induction X with
  | nil => simp [lastRows]
  | cons ex rest ih =>
      have hex : ¬ ex = [] := h ex (List.mem_cons_self ex rest)
      obtain ⟨r, hr⟩ : ∃ r, ex.getLast? = some r := by
        cases hx : ex.getLast? with
        | none => exact absurd (List.getLast?_eq_none_iff.mp hx) hex
        | some r => exact ⟨r, rfl⟩
      have ihr := ih (fun e he => h e (List.mem_cons_of_mem ex he))
      simp only [lastRows, hr, ihr, List.map_cons]
      simp [Bind.bind, Except.bind, List.getLastD_eq_getLast?, hr]

/-- A tensor of single-timestep examples is reproduced by broadcasting each
example's last row across one timestep. -/
theorem map_replicate_one_self (X : Tensor3D) (h : ∀ ex ∈ X, ex.length = 1) :
    X.map (fun ex => List.replicate 1 (ex.getLastD [])) = X := by
  induction X with
  | nil => simp
  | cons ex rest ih =>
      have h1 : ex.length = 1 := h ex (List.mem_cons_self _ _)
      obtain ⟨a, rfl⟩ : ∃ a, ex = [a] := by
        cases ex with
        | nil => simp at h1
        | cons a l =>
            cases l with
            | nil => exact ⟨a, rfl⟩
            | cons b m => simp at h1
      rw [List.map_cons, ih (fun e he => h e (List.mem_cons_of_mem _ he))]
      simp [List.getLastD]

/-- Claim C7 (amended): for a nonempty tensor X whose examples all have
T ≥ 1 timesteps (T also being the timestep count of the stored input, here
X itself), the 3D→2D extraction succeeds and the 2D→3D broadcast of its
result replicates each example's final-timestep vector across all T output
timesteps; when T = 1 the round trip reproduces X.  (The original claim's
"equals X only when T = 1" is refuted by the constant-in-time
counterexample below.) -/
theorem claim_C7 (X : Tensor3D) (T : Nat) (hX : ¬ X = []) (hT : 1 ≤ T)
    (hlen : ∀ ex ∈ X, ex.length = T) :
    ∃ M, reshape_last_timestep X = Except.ok M
      ∧ reshape_last_timestep_mat (Sum.inr X) M =
          Except.ok (X.map (fun ex => List.replicate T (ex.getLastD [])))
      ∧ (T = 1 → X.map (fun ex => List.replicate T (ex.getLastD [])) = X) := by
  obtain ⟨ex₀, rest, rfl⟩ : ∃ ex₀ rest, X = ex₀ :: rest := by
    cases X with
    | nil => exact absurd rfl hX
    | cons a l => exact ⟨a, l, rfl⟩
  have hne : ∀ ex ∈ ex₀ :: rest, ¬ ex = [] := by
    intro ex hex hnil
    have := hlen ex hex
    rw [hnil] at this
    simp at this
    omega
  have hex₀ : ¬ ex₀ = [] := hne ex₀ (List.mem_cons_self _ _)
  obtain ⟨r₀, rs, rfl⟩ : ∃ r₀ rs, ex₀ = r₀ :: rs := by
    cases ex₀ with
    | nil => exact absurd rfl hex₀
    | cons a l => exact ⟨a, l, rfl⟩
  refine ⟨((r₀ :: rs) :: rest).map (fun ex => ex.getLastD []), ?_, ?_, ?_⟩
  · simp [reshape_last_timestep, toE, Bind.bind, Except.bind, lastRows_ok _ hne]
  · have hT₀ : (r₀ :: rs).length = T := hlen _ (List.mem_cons_self _ _)
    simp [reshape_last_timestep_mat, toE, getTensor, Bind.bind, Except.bind, hT₀]
  · intro hT1
    subst hT1
    exact map_replicate_one_self _ hlen

/-- Counterexample for C7 as stated: the round trip reproduces a tensor
that is constant across its 2 timesteps, so "equals X only when T = 1" is
false. -/
theorem claim_C7_counterexample :
    reshape_last_timestep [[[(0 : ℚ)], [0]]] = Except.ok [[0]]
    ∧ reshape_last_timestep_mat (Sum.inr [[[(0 : ℚ)], [0]]]) [[0]] =
        Except.ok [[[(0 : ℚ)], [0]]]
    ∧ ¬ (([[[(0 : ℚ)], [0]]] : Tensor3D).getD 0 []).length = 1 := by
  refine ⟨rfl, rfl, by simp⟩

/-- Witness for C7 at a concrete one-example, one-timestep tensor. -/
theorem claim_C7_witness :
    ∃ M, reshape_last_timestep [[[(5 : ℚ)]]] = Except.ok M
      ∧ reshape_last_timestep_mat (Sum.inr [[[(5 : ℚ)]]]) M =
          Except.ok (([[[(5 : ℚ)]]] : Tensor3D).map
            (fun ex => List.replicate 1 (ex.getLastD [])))
      ∧ (1 = 1 → ([[[(5 : ℚ)]]] : Tensor3D).map
          (fun ex => List.replicate 1 (ex.getLastD [])) = [[[(5 : ℚ)]]]) :=
  claim_C7 [[[(5 : ℚ)]]] 1 (by simp) (by omega) (by simp)

/- ----------------------------------------------------------------------
Claim C9: the self-referentially guarded reshape branches of back_prop are
dead code.
---------------------------------------------------------------------- -/

/-- Each backward step equals its pruned variant: inside the LSTM case the
guard layer_types[layer-1] ∈ {Relu, Linear} contradicts the case condition,
and inside the Relu/Linear case the guard layer_types[layer-1] = "LSTM"
does. -/
theorem backStep_eq_pruned
    (f : Tensor3D → (List cacheTuple × Tensor3D) → Nat → gradientDict)
    (g : Matrix → Matrix → Matrix → matrixDict → Nat → (ℚ → ℚ) → matrixDict)
    (st : ModelState) (a : Matrix) (layer : Nat) (bs : BackSt) :
    backStep f g st a layer bs = backStepPruned f g st a layer bs := by
  simp only [backStep, backStepPruned]
  generalize st.layer_types.getD (layer - 1) "" = lt
  by_cases h1 : lt = "LSTM"
  · subst h1
    rfl
  · by_cases h2 : lt = "Relu" ∨ lt = "Linear"
    · by_cases h3 : layer = st.layer_types.length
      · simp [h1, h2, h3]
      · simp [h1, h2, h3, Bind.bind, Except.bind]
    · simp [h1, h2]

/-- The backward loop equals its pruned variant. -/
theorem backLoop_eq_pruned
    (f : Tensor3D → (List cacheTuple × Tensor3D) → Nat → gradientDict)
    (g : Matrix → Matrix → Matrix → matrixDict → Nat → (ℚ → ℚ) → matrixDict)
    (st : ModelState) (a : Matrix) (ls : List Nat) (bs : BackSt) :
    backLoop f g st a ls bs = backLoopPruned f g st a ls bs := by
  induction ls generalizing bs with
  | nil => rfl
  | cons l rest ih =>
      simp only [backLoop, backLoopPruned, backStep_eq_pruned]
      cases backStepPruned f g st a l bs with
      | error e => simp [Bind.bind, Except.bind]
      | ok bs' => simp [Bind.bind, Except.bind, ih]

/-- Claim C9: for every collaborator pair, every state and therefore every
architecture and input, back_prop coincides with the variant from which the
two self-referentially guarded reshape branches (lines 371-374 and 404-407)
have been deleted: those branches are never executed. -/
theorem claim_C9
    (f : Tensor3D → (List cacheTuple × Tensor3D) → Nat → gradientDict)
    (g : Matrix → Matrix → Matrix → matrixDict → Nat → (ℚ → ℚ) → matrixDict)
    (st : ModelState) :
    back_prop f g st = back_prop_pruned f g st := by
  simp only [back_prop, back_prop_pruned, backLoop_eq_pruned]

/- ----------------------------------------------------------------------
Structural lemmas about optimize.
---------------------------------------------------------------------- -/

/-- A successful optimize iteration only rewrites layer_params: every other
field of the state is untouched. -/
theorem optimizeStep_ok_shape {st st₁ : ModelState} {l : Nat}
    (h : optimizeStep st l = Except.ok st₁) :
    ∃ lp, st₁ = { st with layer_params := lp } := by
  unfold optimizeStep at h
  obtain ⟨vs, hvs, h⟩ := bindOk h
  obtain ⟨v, hv, h⟩ := bindOk h
  obtain ⟨s, hs, h⟩ := bindOk h
  dsimp only [] at h
  split at h
  · obtain ⟨gm, hgm, h⟩ := bindOk h
    obtain ⟨pd, hpd, h⟩ := bindOk h
    obtain ⟨r, hr, h⟩ := bindOk h
    simp only [Except.ok.injEq] at h
    exact ⟨_, h.symm⟩
  · split at h
    · obtain ⟨gm, hgm, h⟩ := bindOk h
      obtain ⟨pd, hpd, h⟩ := bindOk h
      obtain ⟨r, hr, h⟩ := bindOk h
      simp only [Except.ok.injEq] at h
      exact ⟨_, h.symm⟩
    · simp only [Except.ok.injEq] at h
      exact ⟨st.layer_params, h.symm⟩

/-- The optimize loop leaves the step counter unchanged. -/
theorem optimizeLoop_t (ls : List Nat) :
    ∀ st st₁ : ModelState, optimizeLoop ls st = Except.ok st₁ → st₁.t = st.t := by
  induction ls with
  | nil =>
      intro st st₁ h
      simp only [optimizeLoop, Except.ok.injEq] at h
      rw [← h]
  | cons l rest ih =>
      intro st st₁ h
      simp only [optimizeLoop] at h
      obtain ⟨st', hstep, h⟩ := bindOk h
      obtain ⟨lp, rfl⟩ := optimizeStep_ok_shape hstep
      have h' := ih _ _ h
      exact h'

/-- If the layer count itself occurs among the loop indices and Adam_params
has exactly the layer count of entries, the optimize loop fails: the
iteration for the last layer reads Adam_params at an out-of-bounds index
(and any earlier iteration can only fail sooner). -/
theorem optimizeLoop_error (ls : List Nat) :
    ∀ st : ModelState, st.layer_types.length ∈ ls →
      st.Adam_params.length = st.layer_types.length →
      ∃ e, optimizeLoop ls st = Except.error e := by
  induction ls with
  | nil =>
      intro st hmem _
      simp at hmem
  | cons l rest ih =>
      intro st hmem hlen
      by_cases hl : l = st.layer_types.length
      · have hnone : st.Adam_params.get? l = none := by
          rw [List.get?_eq_none]
          omega
        have hstep : optimizeStep st l = Except.error "index out of bounds" := by
          unfold optimizeStep
          rw [hnone]
          rfl
        refine ⟨"index out of bounds", ?_⟩
        simp only [optimizeLoop, hstep]
        rfl
      · have hmem' : st.layer_types.length ∈ rest := by
          rcases List.mem_cons.mp hmem with h | h
          · exact absurd h.symm hl
          · exact h
        cases hstep : optimizeStep st l with
        | error e =>
            refine ⟨e, ?_⟩
            simp only [optimizeLoop, hstep]
            rfl
        | ok st₁ =>
            obtain ⟨lp, rfl⟩ := optimizeStep_ok_shape hstep
            obtain ⟨e, he⟩ := ih { st with layer_params := lp } hmem' hlen
            refine ⟨e, ?_⟩
            simp only [optimizeLoop, hstep, Bind.bind, Except.bind]
            exact he

/- ----------------------------------------------------------------------
Claim C2: the first optimize call runs with t = 0.
---------------------------------------------------------------------- -/

/-- Claim C2 (code bug): the step counter is initialized to 0 and optimize
post-increments it only after all bias corrections of the call have been
computed, so the first invocation computes every bias-correction denominator
at t = 0, where both (1 − beta1^t) and (1 − beta2^t) are exactly 0 — not at
t = 1 as the claim requires. -/
theorem claim_C2 :
    initial_t = 0
    ∧ (1 - beta1 ^ initial_t : ℚ) = 0
    ∧ (1 - beta2 ^ initial_t : ℚ) = 0
    ∧ ∀ st st₁ : ModelState, optimize st = Except.ok st₁ → st₁.t = st.t + 1 := by
  refine ⟨rfl, by simp [initial_t], by simp [initial_t], ?_⟩
  intro st st₁ h
  unfold optimize at h
  obtain ⟨st', hloop, h⟩ := bindOk h
  simp only [Except.ok.injEq] at h
  rw [← h]
  rw [optimizeLoop_t _ _ _ hloop]

/-- Witness for C2's post-increment conjunct at a concrete state. -/
theorem claim_C2_witness :
    ({ stC2 with t := 1 } : ModelState).t = stC2.t + 1 :=
  claim_C2.2.2.2 stC2 { stC2 with t := 1 } rfl

/- ----------------------------------------------------------------------
Claim C10: Adam_params is sized to L but optimize reads index l for layer l.
---------------------------------------------------------------------- -/

/-- Claim C10: init_Adam sizes Adam_params to exactly the layer count L, so
its valid indices are 0..L-1, while the optimize iteration for layer l reads
Adam_params[l]; hence the last layer's read is out of bounds: the lookup at
index L yields none and every optimize call on the initialized state takes
the error branch. -/
theorem claim_C10 (st : ModelState) (hL : 1 ≤ st.layer_types.length) :
    (init_Adam st).Adam_params.length = st.layer_types.length
    ∧ (init_Adam st).Adam_params.get? st.layer_types.length = none
    ∧ ∃ e, optimize (init_Adam st) = Except.error e := by
  have hlen : (init_Adam st).Adam_params.length = st.layer_types.length := by
    simp [init_Adam]
  refine ⟨hlen, ?_, ?_⟩
  · rw [List.get?_eq_none]
    omega
  · have hmem : st.layer_types.length ∈
        (List.range (init_Adam st).layer_types.length).map (fun i => i + 1) := by
      refine List.mem_map.mpr ⟨st.layer_types.length - 1, List.mem_range.mpr ?_, ?_⟩
      · show st.layer_types.length - 1 < (init_Adam st).layer_types.length
        have : (init_Adam st).layer_types = st.layer_types := rfl
        rw [this]
        omega
      · omega
    obtain ⟨e, he⟩ := optimizeLoop_error _ (init_Adam st) hmem hlen
    refine ⟨e, ?_⟩
    unfold optimize
    rw [he]
    rfl

/-- Witness for C10 at the concrete one-layer state. -/
theorem claim_C10_witness :
    (init_Adam stC10).Adam_params.length = stC10.layer_types.length
    ∧ (init_Adam stC10).Adam_params.get? stC10.layer_types.length = none
    ∧ ∃ e, optimize (init_Adam stC10) = Except.error e :=
  claim_C10 stC10 (by decide)

/- ----------------------------------------------------------------------
Claim C1: the seed gradient of back_prop.
---------------------------------------------------------------------- -/

/-- Claim C1 (amended): the seed gradient is (prediction − y_train) divided
elementwise by the number of examples of the process-wide x_train tensor —
the dataset stored by init_data, which equals the current minibatch's
example count only if the caller re-stores each minibatch (the in-repo
driver stores the full dataset once) — and the prediction is read out of
the last layer's cache entry under key "A"+(L-1): the stored finalPrediction
value is never consulted. -/
theorem claim_C1_amended (st : ModelState) (X : Tensor3D) (L' : Nat)
    (d : matrixDict) (A : Matrix)
    (hx : st.x_train = Sum.inr X)
    (hL : st.layer_types.length = L' + 1)
    (hc : st.cache.get? L' = some (Sum.inr d))
    (hA : lookupKV d ("A" ++ toString L') = some A) :
    back_prop_seed st = Except.ok (sdiv (msub A st.y_train) ((X.length : Nat) : ℚ))
    ∧ ∀ fp, back_prop_seed { st with finalPrediction := fp } = back_prop_seed st := by
  constructor
  · unfold back_prop_seed
    rw [hx]
    simp only [getTensor, Bind.bind, Except.bind, hL, hc, toE, hA, Option.getD_some]
  · intro fp
    rfl

/-- Counterexample for C1 as stated: on stC1 the code divides the
prediction-minus-target difference by 4 (the stored dataset's example
count), not by 2 (the current minibatch's example count, the prediction's
row count), so the computed seed [[2],[2]] differs from the claimed seed
[[4],[4]]. -/
theorem claim_C1_counterexample :
    back_prop_seed stC1 = Except.ok [[2], [2]]
    ∧ seed_claimed [[8], [8]] stC1.y_train = [[4], [4]]
    ∧ ¬ ([[(2 : ℚ)], [2]] : Matrix) = [[4], [4]] := by
  refine ⟨?_, ?_, by norm_num⟩
  · have h : back_prop_seed stC1 =
        Except.ok (sdiv (msub [[8], [8]] [[0], [0], [0], [0]]) ((4 : Nat) : ℚ)) := rfl
    rw [h]
    norm_num [sdiv, msub]
  · norm_num [seed_claimed, stC1, sdiv, msub]

/-- Witness for C1's amended theorem at the concrete state stC1. -/
theorem claim_C1_witness :
    back_prop_seed stC1 =
      Except.ok (sdiv (msub [[8], [8]] stC1.y_train) (((4 : Nat) : ℚ)))
    ∧ ∀ fp, back_prop_seed { stC1 with finalPrediction := fp } = back_prop_seed stC1 :=
  claim_C1_amended stC1 [[[1]], [[2]], [[3]], [[4]]] 1 [("A1", [[8], [8]])]
    [[8], [8]] rfl rfl rfl rfl

/- ----------------------------------------------------------------------
Claim C6: feed-forward routing after a recurrent layer.
---------------------------------------------------------------------- -/

/-- Claim C6 (code bug): instantiating the Dense collaborator with a probe
that records its input shows that on the architecture [LSTM, Linear] the
Linear layer at position 2 receives the stale default a_out (the empty
matrix), not the last-timestep slice [[7]] of the just-produced hidden
state: the reshape at line 296 is guarded by the self-referential condition
at line 295 and never fires, contradicting the comment above it. -/
theorem claim_C6 :
    (forward_prop lstm_forward_model
        (fun a _p _act _i _f => (a, [("input", a)])) stC6
        (Sum.inr [[[7]]])).map (fun s => s.cache.getD 1 (Sum.inr []))
      = Except.ok (Sum.inr [("input", ([] : Matrix))])
    ∧ reshape_last_timestep [[[(7 : ℚ)]]] = Except.ok [[7]]
    ∧ ¬ (([] : Matrix) = [[(7 : ℚ)]]) := by
  exact ⟨rfl, rfl, by simp⟩

/- ----------------------------------------------------------------------
Claim C3: sequence lengths after one forward+backward pass.
---------------------------------------------------------------------- -/

/-- Counterexample for C3 as stated: after one complete forward pass and one
complete backward pass on the two-layer architecture [LSTM, Linear], the
descriptor sequences and the cache have length L = 2 but the gradient
sequence has length 0, not L: the top layer is skipped and the LSTM layer's
cache lookup (at the off-by-one index) finds the wrong alternative. -/
theorem claim_C3_counterexample :
    ((forward_prop lstm_forward_model Dense_model stC3 (Sum.inr [[[1]]])).bind
        (fun s => back_prop lstm_backprop_model mlp_backward_model s)).map
      (fun s => (s.layer_types.length, s.layer_dims.length, s.layer_params.length,
        s.cache.length, s.grads.length))
      = Except.ok (2, 2, 2, 2, 0)
    ∧ ¬ ((0 : Nat) = 2) := by
  exact ⟨rfl, by decide⟩

/-- Appending-or-replacing grows the sequence by at most one entry. -/
theorem pushOrSet_len {α : Type} (L : Nat) (l : List α) (i : Nat) (e : α) :
    (pushOrSet L l i e).length ≤ l.length + 1 := by
  unfold pushOrSet
  split
  · simp
  · simp

/-- A successful forward step on a layer of recognized type, while the cache
has not yet reached the layer count, appends exactly one cache entry. -/
theorem forwardStep_cache_len
    {lf : Tensor3D → Matrix → matrixDict → Nat → LSTMCache}
    {Dense : Matrix → matrixDict → (ℚ → ℚ) → Nat → Bool → Matrix × matrixDict}
    {layer_types : List String} {layer_params : List matrixDict}
    {x : variantTensor} {a : Matrix} {i : Nat} {fs fs' : FwdSt}
    (h : forwardStep lf Dense layer_types layer_params x a i fs = Except.ok fs')
    (hval : layer_types.getD (i - 1) "" = "LSTM"
      ∨ layer_types.getD (i - 1) "" = "Relu"
      ∨ layer_types.getD (i - 1) "" = "Linear")
    (hlen : ¬ fs.cache.length = layer_types.length) :
    fs'.cache.length = fs.cache.length + 1 := by
  unfold forwardStep at h
  dsimp only [] at h
  by_cases h1 : layer_types.getD (i - 1) "" = "LSTM"
  · rw [if_pos h1] at h
    obtain ⟨params, hp, h⟩ := bindOk h
    split at h
    · obtain ⟨X, hX, h⟩ := bindOk h
      simp only [Except.ok.injEq] at h
      rw [← h]
      simp [pushOrSet, hlen]
    · obtain ⟨a0, ha0, h⟩ := bindOk h
      simp only [Except.ok.injEq] at h
      rw [← h]
      simp [pushOrSet, hlen]
  · rw [if_neg h1] at h
    by_cases h2 : layer_types.getD (i - 1) "" = "Relu"
    · rw [if_pos h2] at h
      split at h
      · exact absurd h (by simp)
      · split at h
        · obtain ⟨m, hm, h⟩ := bindOk h
          obtain ⟨y, hy, h⟩ := bindOk h
          obtain ⟨params, hp, h⟩ := bindOk h
          simp only [Except.ok.injEq] at h
          rw [← h]
          simp [pushOrSet, hlen]
        · obtain ⟨y, hy, h⟩ := bindOk h
          obtain ⟨params, hp, h⟩ := bindOk h
          simp only [Except.ok.injEq] at h
          rw [← h]
          simp [pushOrSet, hlen]
    · rw [if_neg h2] at h
      by_cases h3 : layer_types.getD (i - 1) "" = "Linear"
      · rw [if_pos h3] at h
        split at h
        · obtain ⟨m, hm, h⟩ := bindOk h
          obtain ⟨y, hy, h⟩ := bindOk h
          obtain ⟨params, hp, h⟩ := bindOk h
          simp only [Except.ok.injEq] at h
          rw [← h]
          simp [pushOrSet, hlen]
        · obtain ⟨y, hy, h⟩ := bindOk h
          obtain ⟨params, hp, h⟩ := bindOk h
          simp only [Except.ok.injEq] at h
          rw [← h]
          simp [pushOrSet, hlen]
      · rcases hval with hv | hv | hv
        · exact absurd hv h1
        · exact absurd hv h2
        · exact absurd hv h3

/-- Over a full index run whose length complements the cache, a successful
forward loop leaves the cache at exactly the layer count. -/
theorem forwardLoop_cache_len
    (lf : Tensor3D → Matrix → matrixDict → Nat → LSTMCache)
    (Dense : Matrix → matrixDict → (ℚ → ℚ) → Nat → Bool → Matrix × matrixDict)
    (layer_types : List String) (layer_params : List matrixDict)
    (x : variantTensor) (a : Matrix) :
    ∀ (is : List Nat) (fs fs' : FwdSt),
      (∀ i ∈ is, 1 ≤ i ∧ i ≤ layer_types.length) →
      (∀ s ∈ layer_types, s = "LSTM" ∨ s = "Relu" ∨ s = "Linear") →
      fs.cache.length + is.length = layer_types.length →
      forwardLoop lf Dense layer_types layer_params x a is fs = Except.ok fs' →
      fs'.cache.length = layer_types.length := by
  intro is
  induction is with
  | nil =>
      intro fs fs' _ _ hsum h
      simp only [forwardLoop, Except.ok.injEq] at h
      rw [← h]
      simpa using hsum
  | cons i rest ih =>
      intro fs fs' hbounds htypes hsum h
      simp only [forwardLoop] at h
      obtain ⟨fs₁, hstep, h⟩ := bindOk h
      have hib := hbounds i (List.mem_cons_self _ _)
      have hlt : i - 1 < layer_types.length := by
        simp only [List.length_cons] at hsum
        omega
      have hval := htypes (layer_types.getD (i - 1) "") (by
        rw [List.getD_eq_getElem layer_types "" hlt]
        exact List.getElem_mem hlt)
      have hne : ¬ fs.cache.length = layer_types.length := by
        simp only [List.length_cons] at hsum
        omega
      have hgrow := forwardStep_cache_len hstep hval hne
      exact ih fs₁ fs' (fun j hj => hbounds j (List.mem_cons_of_mem _ hj)) htypes
        (by simp only [List.length_cons] at hsum; omega) h

/-- A successful forward pass from an empty cache on an architecture of
recognized layer types fills the cache to exactly the layer count and
touches no other sequence. -/
theorem forward_prop_ok_len
    {lf : Tensor3D → Matrix → matrixDict → Nat → LSTMCache}
    {Dense : Matrix → matrixDict → (ℚ → ℚ) → Nat → Bool → Matrix × matrixDict}
    {st st₁ : ModelState} {x : variantTensor}
    (h : forward_prop lf Dense st x = Except.ok st₁)
    (htypes : ∀ s ∈ st.layer_types, s = "LSTM" ∨ s = "Relu" ∨ s = "Linear")
    (hcache : st.cache = []) :
    st₁.layer_types = st.layer_types ∧ st₁.layer_dims = st.layer_dims
    ∧ st₁.layer_params = st.layer_params ∧ st₁.grads = st.grads
    ∧ st₁.x_train = st.x_train ∧ st₁.y_train = st.y_train
    ∧ st₁.cache.length = st.layer_types.length := by
  unfold forward_prop at h
  obtain ⟨p₀, hp, h⟩ := bindOk h
  obtain ⟨row₀, hr, h⟩ := bindOk h
  obtain ⟨X, hX, h⟩ := bindOk h
  obtain ⟨fs', hloop, h⟩ := bindOk h
  simp only [Except.ok.injEq] at h
  rw [← h]
  refine ⟨rfl, rfl, rfl, rfl, rfl, rfl, ?_⟩
  refine forwardLoop_cache_len lf Dense st.layer_types st.layer_params x _ _ _ fs'
    (fun i hi => ?_) htypes (by simp [hcache]) hloop
  obtain ⟨j, hj, rfl⟩ := List.mem_map.mp hi
  have := List.mem_range.mp hj
  omega

/-- A successful backward step grows the gradient sequence by at most one
entry, and not at all at the top layer. -/
theorem backStep_grads
    {f : Tensor3D → (List cacheTuple × Tensor3D) → Nat → gradientDict}
    {g : Matrix → Matrix → Matrix → matrixDict → Nat → (ℚ → ℚ) → matrixDict}
    {st : ModelState} {a : Matrix} {layer : Nat} {bs bs' : BackSt}
    (h : backStep f g st a layer bs = Except.ok bs') :
    bs'.grads.length ≤ bs.grads.length + 1
    ∧ (layer = st.layer_types.length → bs'.grads = bs.grads) := by
  rw [backStep_eq_pruned] at h
  unfold backStepPruned at h
  dsimp only [] at h
  by_cases h1 : st.layer_types.getD (layer - 1) "" = "LSTM"
  · rw [if_pos h1] at h
    split at h
    · simp only [Except.ok.injEq] at h
      rw [← h]
      exact ⟨by omega, fun _ => rfl⟩
    · rename_i hL
      split at h
      · exact absurd h (by simp)
      · simp only [Except.ok.injEq] at h
        rw [← h]
        exact ⟨by omega, fun hEq => absurd hEq hL⟩
      · obtain ⟨dA₂, hd₂, h⟩ := bindOk h
        simp only [Except.ok.injEq] at h
        rw [← h]
        exact ⟨pushOrSet_len _ _ _ _, fun hEq => absurd hEq hL⟩
  · rw [if_neg h1] at h
    by_cases h2 : st.layer_types.getD (layer - 1) "" = "Relu"
        ∨ st.layer_types.getD (layer - 1) "" = "Linear"
    · rw [if_pos h2] at h
      split at h
      · simp only [Except.ok.injEq] at h
        rw [← h]
        exact ⟨by omega, fun _ => rfl⟩
      · rename_i hL
        obtain ⟨cd, hcd, h⟩ := bindOk h
        simp only [Except.ok.injEq] at h
        rw [← h]
        exact ⟨pushOrSet_len _ _ _ _, fun hEq => absurd hEq hL⟩
    · rw [if_neg h2] at h
      simp only [Except.ok.injEq] at h
      rw [← h]
      exact ⟨by omega, fun _ => rfl⟩

/-- The backward loop grows the gradient sequence by at most the number of
remaining indices. -/
theorem backLoop_grads_le
    (f : Tensor3D → (List cacheTuple × Tensor3D) → Nat → gradientDict)
    (g : Matrix → Matrix → Matrix → matrixDict → Nat → (ℚ → ℚ) → matrixDict)
    (st : ModelState) (a : Matrix) :
    ∀ (is : List Nat) (bs bs' : BackSt),
      backLoop f g st a is bs = Except.ok bs' →
      bs'.grads.length ≤ bs.grads.length + is.length := by
  intro is
  induction is with
  | nil =>
      intro bs bs' h
      simp only [backLoop, Except.ok.injEq] at h
      rw [← h]
      simp
  | cons l rest ih =>
      intro bs bs' h
      simp only [backLoop] at h
      obtain ⟨bs₁, hstep, h⟩ := bindOk h
      have h₁ := (backStep_grads hstep).1
      have h₂ := ih bs₁ bs' h
      simp only [List.length_cons]
      omega

/-- When the top layer's index occurs among the loop indices, the backward
loop fills at most one gradient entry fewer than it has indices. -/
theorem backLoop_grads_lt
    (f : Tensor3D → (List cacheTuple × Tensor3D) → Nat → gradientDict)
    (g : Matrix → Matrix → Matrix → matrixDict → Nat → (ℚ → ℚ) → matrixDict)
    (st : ModelState) (a : Matrix) :
    ∀ (is : List Nat) (bs bs' : BackSt),
      backLoop f g st a is bs = Except.ok bs' →
      st.layer_types.length ∈ is →
      bs'.grads.length + 1 ≤ bs.grads.length + is.length := by
  intro is
  induction is with
  | nil =>
      intro bs bs' _ hmem
      simp at hmem
  | cons l rest ih =>
      intro bs bs' h hmem
      simp only [backLoop] at h
      obtain ⟨bs₁, hstep, h⟩ := bindOk h
      by_cases hl : l = st.layer_types.length
      · have heq : bs₁.grads.length = bs.grads.length := by
          rw [(backStep_grads hstep).2 hl]
        have hrest := backLoop_grads_le f g st a rest bs₁ bs' h
        simp only [List.length_cons]
        omega
      · have hmem' : st.layer_types.length ∈ rest := by
          rcases List.mem_cons.mp hmem with hc | hc
          · exact absurd hc.symm hl
          · exact hc
        have h₁ := (backStep_grads hstep).1
        have h₂ := ih bs₁ bs' h hmem'
        simp only [List.length_cons]
        omega

/-- A successful seed computation requires at least one layer. -/
theorem back_prop_seed_ok_pos {st : ModelState} {dA : Matrix}
    (h : back_prop_seed st = Except.ok dA) : 1 ≤ st.layer_types.length := by
  unfold back_prop_seed at h
  obtain ⟨X, hX, h⟩ := bindOk h
  cases hL : st.layer_types.length with
  | zero =>
      rw [hL] at h
      exact absurd h (by simp)
  | succ n => omega

/-- A successful backward pass from an empty gradient sequence leaves fewer
than L gradient entries and touches no other sequence. -/
theorem back_prop_ok_len
    {f : Tensor3D → (List cacheTuple × Tensor3D) → Nat → gradientDict}
    {g : Matrix → Matrix → Matrix → matrixDict → Nat → (ℚ → ℚ) → matrixDict}
    {st st₂ : ModelState}
    (h : back_prop f g st = Except.ok st₂)
    (hgrads : st.grads = []) :
    st₂.layer_types = st.layer_types ∧ st₂.layer_dims = st.layer_dims
    ∧ st₂.layer_params = st.layer_params ∧ st₂.cache = st.cache
    ∧ 1 ≤ st.layer_types.length
    ∧ st₂.grads.length < st.layer_types.length := by
  unfold back_prop at h
  obtain ⟨X, hX, h⟩ := bindOk h
  obtain ⟨a, ha, h⟩ := bindOk h
  obtain ⟨dA₀, hd, h⟩ := bindOk h
  obtain ⟨bs, hloop, h⟩ := bindOk h
  simp only [Except.ok.injEq] at h
  have hpos := back_prop_seed_ok_pos hd
  rw [← h]
  refine ⟨rfl, rfl, rfl, rfl, hpos, ?_⟩
  have hmem : st.layer_types.length ∈
      ((List.range st.layer_types.length).map (fun i => i + 1)).reverse := by
    rw [List.mem_reverse]
    refine List.mem_map.mpr ⟨st.layer_types.length - 1,
      List.mem_range.mpr (by omega), by omega⟩
  have := backLoop_grads_lt f g st a _ ⟨st.grads, dA₀, []⟩ bs hloop hmem
  simp only [hgrads, List.length_nil, List.length_reverse, List.length_map,
    List.length_range] at this
  show bs.grads.length < st.layer_types.length
  omega

/-- Claim C3 (amended): after one complete first forward pass followed by one
complete backward pass (both succeeding, from empty cache and gradient
sequences, on recognized layer types), layer_types, layer_dims, layer_params
and the unified cache all have length exactly L, but the unified gradient
sequence has length at most L − 1: the loop never stores a gradient for the
top layer. -/
theorem claim_C3_amended
    (lf : Tensor3D → Matrix → matrixDict → Nat → LSTMCache)
    (Dense : Matrix → matrixDict → (ℚ → ℚ) → Nat → Bool → Matrix × matrixDict)
    (f : Tensor3D → (List cacheTuple × Tensor3D) → Nat → gradientDict)
    (g : Matrix → Matrix → Matrix → matrixDict → Nat → (ℚ → ℚ) → matrixDict)
    (st st₂ : ModelState) (x : variantTensor) (L : Nat)
    (hT : st.layer_types.length = L) (hD : st.layer_dims.length = L)
    (hP : st.layer_params.length = L)
    (hC : st.cache = []) (hG : st.grads = [])
    (hvalid : ∀ s ∈ st.layer_types, s = "LSTM" ∨ s = "Relu" ∨ s = "Linear")
    (hrun : (forward_prop lf Dense st x >>= fun s => back_prop f g s) = Except.ok st₂) :
    st₂.layer_types.length = L ∧ st₂.layer_dims.length = L
    ∧ st₂.layer_params.length = L ∧ st₂.cache.length = L
    ∧ st₂.grads.length < L ∧ 1 ≤ L := by
  obtain ⟨st₁, hf, hb⟩ := bindOk hrun
  obtain ⟨f1, f2, f3, f4, f5, f6, f7⟩ := forward_prop_ok_len hf hvalid hC
  obtain ⟨b1, b2, b3, b4, b5, b6⟩ := back_prop_ok_len hb (by rw [f4, hG])
  refine ⟨?_, ?_, ?_, ?_, ?_, ?_⟩
  · rw [b1, f1, hT]
  · rw [b2, f2, hD]
  · rw [b3, f3, hP]
  · rw [b4, f7, hT]
  · rw [f1, hT] at b6
    exact b6
  · rw [f1, hT] at b5
    exact b5

/-- Witness for C3's amended theorem at the concrete two-layer run. -/
theorem claim_C3_witness :
    stC3'.layer_types.length = 2 ∧ stC3'.layer_dims.length = 2
    ∧ stC3'.layer_params.length = 2 ∧ stC3'.cache.length = 2
    ∧ stC3'.grads.length < 2 ∧ 1 ≤ 2 :=
  claim_C3_amended lstm_forward_model Dense_model lstm_backprop_model
    mlp_backward_model stC3 stC3' (Sum.inr [[[1]]]) 2 rfl rfl rfl rfl rfl
    (by decide) rfl

/- ----------------------------------------------------------------------
Claim C4: what one optimize call does to the parameter matrices.
---------------------------------------------------------------------- -/

/-- getD agrees with get? on lists. -/
theorem getD_eq_get?_getD {α : Type} (l : List α) (i : Nat) (d : α) :
    l.getD i d = (l.get? i).getD d := by
  simp [List.getD_eq_getElem?_getD, ← List.get?_eq_getElem?]

/-- The per-layer key fold changes the parameter dictionary only at the keys
stem ++ (l+1): every other lookup is untouched. -/
theorem optimizeKeys_lookup {lr : ℚ} {t l : Nat} {gm : gradientDict} :
    ∀ (stems : List String) (v s pd : matrixDict)
      (r : matrixDict × matrixDict × matrixDict),
      optimizeKeys lr t l gm stems v s pd = Except.ok r →
      ∀ k, (∀ κ ∈ stems, ¬ k = κ ++ toString (l + 1)) →
        lookupKV r.2.2 k = lookupKV pd k := by
  intro stems
  induction stems with
  | nil =>
      intro v s pd r h k _
      simp only [optimizeKeys, Except.ok.injEq] at h
      rw [← h]
  | cons κ rest ih =>
      intro v s pd r h k hk
      simp only [optimizeKeys] at h
      obtain ⟨gmat, hg, h⟩ := bindOk h
      have hrec := ih _ _ _ _ h k (fun κ' hκ' => hk κ' (List.mem_cons_of_mem _ hκ'))
      rw [hrec, lookupKV_insertKV_ne _ _ _ _ (hk κ (List.mem_cons_self _ _))]

/-- One optimize iteration only rewrites layer_params[l-1], and there only
the entries under the keys stepParamKeys: indices other than l-1 are
untouched, and at l-1 every lookup outside those keys is preserved. -/
theorem optimizeStep_params {st st₁ : ModelState} {l : Nat}
    (h : optimizeStep st l = Except.ok st₁) :
    (∀ j, ¬ j = l - 1 → st₁.layer_params.get? j = st.layer_params.get? j)
    ∧ (∀ k, (∀ κ ∈ stepParamKeys (st.layer_types.getD (l - 1) "") l, ¬ k = κ) →
        ∀ d, st.layer_params.get? (l - 1) = some d →
          ∃ d₁, st₁.layer_params.get? (l - 1) = some d₁
            ∧ lookupKV d₁ k = lookupKV d k) := by
  unfold optimizeStep at h
  obtain ⟨vs, hvs, h⟩ := bindOk h
  obtain ⟨v, hv, h⟩ := bindOk h
  obtain ⟨s, hs, h⟩ := bindOk h
  dsimp only [] at h
  by_cases h1 : st.layer_types.getD (l - 1) "" = "LSTM"
  · rw [if_pos h1] at h
    obtain ⟨gm, hgm, h⟩ := bindOk h
    obtain ⟨pd, hpd, h⟩ := bindOk h
    obtain ⟨r, hr, h⟩ := bindOk h
    simp only [Except.ok.injEq] at h
    rw [← h]
    have hpd' : st.layer_params.get? (l - 1) = some pd := toE_ok hpd
    have hlt : l - 1 < st.layer_params.length := (List.get?_eq_some.mp hpd').choose
    constructor
    · intro j hj
      exact List.get?_set_ne _ _ (fun hEq => hj hEq.symm)
    · intro k hk d hd
      have hdp : d = pd := by
        rw [hpd'] at hd
        exact (Option.some.inj hd).symm
      refine ⟨r.2.2, by simp [List.get?_set_eq_of_lt, hlt], ?_⟩
      rw [hdp]
      refine optimizeKeys_lookup lstmGradKeys v s pd r hr k (fun κ hκ => ?_)
      refine hk (κ ++ toString (l + 1)) ?_
      simp only [stepParamKeys, if_pos h1]
      exact List.mem_map.mpr ⟨κ, hκ, rfl⟩
  · rw [if_neg h1] at h
    by_cases h2 : st.layer_types.getD (l - 1) "" = "Relu"
        ∨ st.layer_types.getD (l - 1) "" = "Linear"
    · rw [if_pos h2] at h
      obtain ⟨gm, hgm, h⟩ := bindOk h
      obtain ⟨pd, hpd, h⟩ := bindOk h
      obtain ⟨r, hr, h⟩ := bindOk h
      simp only [Except.ok.injEq] at h
      rw [← h]
      have hpd' : st.layer_params.get? (l - 1) = some pd := toE_ok hpd
      have hlt : l - 1 < st.layer_params.length := (List.get?_eq_some.mp hpd').choose
      constructor
      · intro j hj
        exact List.get?_set_ne _ _ (fun hEq => hj hEq.symm)
      · intro k hk d hd
        have hdp : d = pd := by
          rw [hpd'] at hd
          exact (Option.some.inj hd).symm
        refine ⟨r.2.2, by simp [List.get?_set_eq_of_lt, hlt], ?_⟩
        rw [hdp]
        refine optimizeKeys_lookup mlpGradKeys v s pd r hr k (fun κ hκ => ?_)
        refine hk (κ ++ toString (l + 1)) ?_
        simp only [stepParamKeys, if_neg h1, if_pos h2]
        exact List.mem_map.mpr ⟨κ, hκ, rfl⟩
    · rw [if_neg h2] at h
      simp only [Except.ok.injEq] at h
      rw [← h]
      exact ⟨fun j _ => rfl, fun k _ d hd => ⟨d, hd, rfl⟩⟩

/-- Over a run of distinct indices whose step-written keys are all absent
from the corresponding pre-call dictionaries, the optimize loop preserves
every pre-existing parameter entry. -/
theorem optimizeLoop_params :
    ∀ (ls : List Nat) (st st' : ModelState),
      optimizeLoop ls st = Except.ok st' →
      (∀ l ∈ ls, 1 ≤ l) →
      ls.Nodup →
      (∀ l ∈ ls, ∀ k ∈ stepParamKeys (st.layer_types.getD (l - 1) "") l,
          lookupKV (st.layer_params.getD (l - 1) []) k = none) →
      ∀ i d k M, st.layer_params.get? i = some d → lookupKV d k = some M →
        ∃ d', st'.layer_params.get? i = some d' ∧ lookupKV d' k = some M := by
  intro ls
  induction ls with
  | nil =>
      intro st st' h _ _ _ i d k M hd hk
      simp only [optimizeLoop, Except.ok.injEq] at h
      rw [← h]
      exact ⟨d, hd, hk⟩
  | cons l rest ih =>
      intro st st' h hpos hnd hdisj i d k M hd hk
      simp only [optimizeLoop] at h
      obtain ⟨st₁, hstep, h⟩ := bindOk h
      obtain ⟨hother, hsame⟩ := optimizeStep_params hstep
      obtain ⟨lp, hshape⟩ := optimizeStep_ok_shape hstep
      have htypes : st₁.layer_types = st.layer_types := by rw [hshape]
      have hl1 : (1 : Nat) ≤ l := hpos l (List.mem_cons_self _ _)
      have hlnotin : l ∉ rest := (List.nodup_cons.mp hnd).1
      -- indices touched by the remaining iterations are untouched by this step
      have hrest_params : ∀ l' ∈ rest, st₁.layer_params.get? (l' - 1)
          = st.layer_params.get? (l' - 1) := by
        intro l' hl'
        refine hother (l' - 1) (fun hEq => ?_)
        have h1' : (1 : Nat) ≤ l' := hpos l' (List.mem_cons_of_mem _ hl')
        have : l' = l := by omega
        exact hlnotin (this ▸ hl')
      have hdisj₁ : ∀ l' ∈ rest, ∀ k' ∈ stepParamKeys (st₁.layer_types.getD (l' - 1) "") l',
          lookupKV (st₁.layer_params.getD (l' - 1) []) k' = none := by
        intro l' hl' k' hk'
        rw [htypes] at hk'
        rw [getD_eq_get?_getD, hrest_params l' hl', ← getD_eq_get?_getD]
        exact hdisj l' (List.mem_cons_of_mem _ hl') k' hk'
      by_cases hi : i = l - 1
      · subst hi
        have hgetD : st.layer_params.getD (l - 1) [] = d := by
          rw [getD_eq_get?_getD, hd]
          rfl
        have hknot : ∀ κ ∈ stepParamKeys (st.layer_types.getD (l - 1) "") l,
            ¬ k = κ := by
          intro κ hκ hEq
          have hnone := hdisj l (List.mem_cons_self _ _) κ hκ
          rw [hgetD, ← hEq, hk] at hnone
          exact Option.noConfusion hnone
        obtain ⟨d₁, hget₁, hlk₁⟩ := hsame k hknot d hd
        refine ih st₁ st' h (fun l' hl' => hpos l' (List.mem_cons_of_mem _ hl'))
          (List.nodup_cons.mp hnd).2 hdisj₁ (l - 1) d₁ k M hget₁ ?_
        rw [hlk₁, hk]
      · have hd₁ : st₁.layer_params.get? i = some d := by
          rw [hother i hi, hd]
        exact ih st₁ st' h (fun l' hl' => hpos l' (List.mem_cons_of_mem _ hl'))
          (List.nodup_cons.mp hnd).2 hdisj₁ i d k M hd₁ hk

/-- Claim C4 (amended): when an optimize call completes, every parameter
matrix present in layer_params before the call is still present, unchanged
and hence with its exact pre-step shape — because the update writes only
under the index-shifted keys stem++(l+1) (absent from the dictionaries the
initializers produce, which key layer l's parameters with suffix l) — but
the call does introduce new parameter entries under those shifted keys
rather than updating the existing ones, so the claim's "introduces no new
parameter entries" fails (see the counterexample). -/
theorem claim_C4_amended (st st' : ModelState)
    (hok : optimize st = Except.ok st')
    (hdisj : ∀ l ∈ (List.range st.layer_types.length).map (fun i => i + 1),
      ∀ k ∈ stepParamKeys (st.layer_types.getD (l - 1) "") l,
        lookupKV (st.layer_params.getD (l - 1) []) k = none) :
    ∀ i d k M, st.layer_params.get? i = some d → lookupKV d k = some M →
      ∃ d', st'.layer_params.get? i = some d' ∧ lookupKV d' k = some M := by
  intro i d k M hd hk
  unfold optimize at hok
  obtain ⟨st'', hloop, hok⟩ := bindOk hok
  simp only [Except.ok.injEq] at hok
  have hpos : ∀ l ∈ (List.range st.layer_types.length).map (fun i => i + 1),
      (1 : Nat) ≤ l := by
    intro l hl
    obtain ⟨j, _, rfl⟩ := List.mem_map.mp hl
    omega
  have hnd : ((List.range st.layer_types.length).map (fun i => i + 1)).Nodup :=
    (List.nodup_range _).map (fun a b hab => by omega)
  obtain ⟨d', hd', hk'⟩ := optimizeLoop_params _ st st'' hloop hpos hnd hdisj
    i d k M hd hk
  rw [← hok]
  exact ⟨d', hd', hk'⟩

/-- Counterexample for C4 as stated: one completed optimize call on stC4
introduces the new parameter entries "W2" and "b2" into layer 1's parameter
dictionary (the update is keyed with suffix l+1 = 2, while the existing
matrix is keyed "W1"), refuting "the Adam update introduces no new parameter
entries". -/
theorem claim_C4_counterexample :
    optimize stC4 = Except.ok stC4'
    ∧ lookupKV (stC4.layer_params.getD 0 []) "W2" = none
    ∧ lookupKV (stC4'.layer_params.getD 0 []) "W2" = some [] := by
  exact ⟨rfl, rfl, rfl⟩

/-- Witness for C4's amended theorem: the pre-existing matrix "W1" survives
the optimize call on stC4 unchanged. -/
theorem claim_C4_witness :
    ∃ d', stC4'.layer_params.get? 0 = some d' ∧ lookupKV d' "W1" = some [[5]] :=
  claim_C4_amended stC4 stC4' rfl (by decide) 0 [("W1", [[5]])] "W1" [[5]] rfl rfl

/- ----------------------------------------------------------------------
Claim C5: minibatch partitioning.
---------------------------------------------------------------------- -/

/-- Concatenating the input chunks reproduces the shuffled input sequence. -/
theorem mb_flatten_fst (b : Nat) :
    ∀ (n : Nat) (xs : Tensor3D) (ys : Matrix), xs.length ≤ n →
      ((make_minibatches b xs ys).map Prod.fst).flatten = xs := by
  intro n
  induction n with
  | zero =>
      intro xs ys h
      cases xs with
      | nil => simp [make_minibatches]
      | cons x xs' => simp at h
  | succ n ih =>
      intro xs ys h
      cases xs with
      | nil => simp [make_minibatches]
      | cons x xs' =>
          simp only [make_minibatches, List.map_cons, List.flatten_cons]
          rw [ih (xs'.drop (b - 1)) (ys.drop b) (by simp at h ⊢; omega)]
          simp [List.take_append_drop]

/-- Concatenating the target chunks reproduces the shuffled target sequence
(the loop bound is the input's length, so the targets must pair up). -/
theorem mb_flatten_snd (b : Nat) (hb : 1 ≤ b) :
    ∀ (n : Nat) (xs : Tensor3D) (ys : Matrix), xs.length ≤ n →
      ys.length = xs.length →
      ((make_minibatches b xs ys).map Prod.snd).flatten = ys := by
  intro n
  induction n with
  | zero =>
      intro xs ys h hxy
      cases xs with
      | nil =>
          simp only [List.length_nil] at hxy
          rw [List.length_eq_zero] at hxy
          simp [make_minibatches, hxy]
      | cons x xs' => simp at h
  | succ n ih =>
      intro xs ys h hxy
      cases xs with
      | nil =>
          simp only [List.length_nil] at hxy
          rw [List.length_eq_zero] at hxy
          simp [make_minibatches, hxy]
      | cons x xs' =>
          simp only [make_minibatches, List.map_cons, List.flatten_cons]
          rw [ih (xs'.drop (b - 1)) (ys.drop b) (by simp at h ⊢; omega)
            (by simp at hxy ⊢; omega)]
          simp [List.take_append_drop]

/-- Chunk-size decomposition: every minibatch except the last holds exactly
batch_size examples; the last holds m mod batch_size of them when batch_size
does not divide m, and exactly batch_size when it does. -/
theorem mb_sizes (b : Nat) (hb : 1 ≤ b) :
    ∀ (n : Nat) (xs : Tensor3D) (ys : Matrix), xs.length ≤ n → ¬ xs = [] →
      ∃ cs c, make_minibatches b xs ys = cs ++ [c]
        ∧ (∀ pr ∈ cs, pr.1.length = b)
        ∧ (¬ (b ∣ xs.length) → c.1.length = xs.length % b)
        ∧ ((b ∣ xs.length) → c.1.length = b) := by
  intro n
  induction n with
  | zero =>
      intro xs ys h hne
      cases xs with
      | nil => exact absurd rfl hne
      | cons x xs' => simp at h
  | succ n ih =>
      intro xs ys h hne
      cases xs with
      | nil => exact absurd rfl hne
      | cons x xs' =>
          by_cases hrest : xs'.drop (b - 1) = []
          · have hxs' : xs'.length ≤ b - 1 := List.drop_eq_nil_iff.mp hrest
            refine ⟨[], (x :: xs'.take (b - 1), ys.take b), ?_, by simp, ?_, ?_⟩
            · simp [make_minibatches, hrest]
            · intro hndvd
              have hlt : xs'.length + 1 < b := by
                rcases Nat.lt_or_ge (xs'.length + 1) b with hc | hc
                · exact hc
                · exfalso
                  have hEq : xs'.length + 1 = b := by omega
                  exact hndvd (by simp [List.length_cons, hEq])
              simp only [List.length_cons]
              rw [Nat.mod_eq_of_lt hlt]
              simp [List.length_take]
              omega
            · intro hdvd
              have hble : b ≤ xs'.length + 1 :=
                Nat.le_of_dvd (by omega) (by simpa using hdvd)
              simp [List.length_take]
              omega
          · have hlb : b - 1 < xs'.length := by
              rcases Nat.lt_or_ge (b - 1) xs'.length with hc | hc
              · exact hc
              · exact absurd (List.drop_eq_nil_iff.mpr hc) hrest
            obtain ⟨cs', c, hrec, hcs, hmod, hdvd⟩ :=
              ih (xs'.drop (b - 1)) (ys.drop b) (by simp at h ⊢; omega) hrest
            have hrl : (xs'.drop (b - 1)).length = xs'.length - (b - 1) := by simp
            refine ⟨(x :: xs'.take (b - 1), ys.take b) :: cs', c, ?_, ?_, ?_, ?_⟩
            · simp [make_minibatches, hrec]
            · intro pr hpr
              rcases List.mem_cons.mp hpr with hc | hc
              · rw [hc]
                simp [List.length_take]
                omega
              · exact hcs pr hc
            · intro hndvd
              have heq : xs'.length + 1 = (xs'.length - (b - 1)) + b := by omega
              have hnd' : ¬ (b ∣ (xs'.drop (b - 1)).length) := by
                rw [hrl]
                intro hdv
                refine hndvd ?_
                simp only [List.length_cons]
                rw [heq]
                exact Nat.dvd_add hdv (dvd_refl b)
              have := hmod hnd'
              rw [hrl] at this
              simp only [List.length_cons]
              rw [heq, Nat.add_mod_right]
              exact this
            · intro hdv
              have heq : xs'.length + 1 = (xs'.length - (b - 1)) + b := by omega
              have hdv' : b ∣ (xs'.drop (b - 1)).length := by
                rw [hrl]
                have h₁ : b ∣ xs'.length + 1 := by simpa using hdv
                have h₂ : xs'.length - (b - 1) = (xs'.length + 1) - b := by omega
                rw [h₂]
                exact Nat.dvd_sub' h₁ (dvd_refl b)
              exact hdvd hdv'

/-- Claim C5 (amended): for every nonempty dataset whose first example has
at least one timestep (the pre-allocation at lines 85 and 97 reads
X[0][0].size(), out of range otherwise — see the counterexample), every
batch size b ≥ 1 and every permutation of the example indices,
generate_minibatches succeeds and partitions the identically shuffled
inputs and targets into contiguous chunks of exactly b examples, except
that the last chunk holds m mod b examples when b does not divide m; each
dataset example appears exactly once. -/
theorem claim_C5_amended (permutation : List Nat) (X : Tensor3D) (Y : Matrix)
    (b : Nat) (hb : 1 ≤ b) (hm : 1 ≤ X.length) (hY : Y.length = X.length)
    (ht : ¬ X.getD 0 [] = [])
    (hperm : permutation.Perm (List.range X.length)) :
    ∃ mbs, generate_minibatches permutation X Y b = Except.ok mbs
      ∧ minibatch_partition_spec mbs permutation X Y b := by
  obtain ⟨x, X', rfl⟩ : ∃ x X', X = x :: X' := by
    cases X with
    | nil => simp at hm
    | cons a l => exact ⟨a, l, rfl⟩
  have hx : ¬ x = [] := by simpa using ht
  obtain ⟨r, rs, rfl⟩ : ∃ r rs, x = r :: rs := by
    cases x with
    | nil => exact absurd rfl hx
    | cons a l => exact ⟨a, l, rfl⟩
  refine ⟨make_minibatches b
      (permutation.map (fun i => ((r :: rs) :: X').getD i []))
      (permutation.map (fun i => Y.getD i [])), rfl, ?_⟩
  have hplen : permutation.length = ((r :: rs) :: X').length := by
    rw [hperm.length_eq, List.length_range]
  have hsx : (permutation.map (fun i => ((r :: rs) :: X').getD i [])).length
      = ((r :: rs) :: X').length := by
    rw [List.length_map, hplen]
  have hsy : (permutation.map (fun i => Y.getD i [])).length
      = ((r :: rs) :: X').length := by
    rw [List.length_map, hplen]
  have hfst : ((make_minibatches b
        (permutation.map (fun i => ((r :: rs) :: X').getD i []))
        (permutation.map (fun i => Y.getD i []))).map Prod.fst).flatten
      = permutation.map (fun i => ((r :: rs) :: X').getD i []) :=
    mb_flatten_fst b _ _ _ (le_refl _)
  have hsnd : ((make_minibatches b
        (permutation.map (fun i => ((r :: rs) :: X').getD i []))
        (permutation.map (fun i => Y.getD i []))).map Prod.snd).flatten
      = permutation.map (fun i => Y.getD i []) :=
    mb_flatten_snd b hb _ _ _ (le_refl _) (by rw [hsy, hsx])
  refine ⟨hfst, hsnd, ?_, ?_, ?_⟩
  · rw [hfst]
    have := hperm.map (fun i => ((r :: rs) :: X').getD i [])
    rw [map_getD_range ((r :: rs) :: X') []] at this
    exact this
  · rw [hsnd]
    have := hperm.map (fun i => Y.getD i [])
    rw [← hY] at this
    rw [map_getD_range Y []] at this
    exact this
  · obtain ⟨cs, c, hdec, hcs, hmod, hdvd⟩ := mb_sizes b hb
      (permutation.map (fun i => ((r :: rs) :: X').getD i [])).length
      (permutation.map (fun i => ((r :: rs) :: X').getD i []))
      (permutation.map (fun i => Y.getD i []))
      (le_refl _)
      (by
        intro hnil
        rw [hnil] at hsx
        simp at hsx)
    rw [hsx] at hmod hdvd
    exact ⟨cs, c, hdec, hcs, hmod, hdvd⟩

/-- Counterexample for C5 as stated: the one-example dataset whose single
example has zero timesteps is non-empty, and [0] is a permutation of its
index range, yet generate_minibatches does not return a partition at all —
the pre-allocation read X[0][0].size() (lines 85 and 97) indexes an empty
vector, modelled as the error branch. -/
theorem claim_C5_counterexample :
    (1 ≤ ([[]] : Tensor3D).length)
    ∧ List.Perm [0] (List.range ([[]] : Tensor3D).length)
    ∧ generate_minibatches [0] ([[]] : Tensor3D) [[0]] 1
        = Except.error "index out of bounds" := by
  exact ⟨by decide, by decide, rfl⟩

/-- Witness for C5: a 3-example dataset, batch size 2 and the permutation
[2,0,1] (so the last chunk holds 3 mod 2 = 1 example). -/
theorem claim_C5_witness :
    ∃ mbs, generate_minibatches [2, 0, 1] [[[1]], [[2]], [[3]]] [[1], [2], [3]] 2
        = Except.ok mbs
      ∧ minibatch_partition_spec mbs [2, 0, 1] [[[1]], [[2]], [[3]]]
          [[1], [2], [3]] 2 :=
  claim_C5_amended [2, 0, 1] [[[1]], [[2]], [[3]]] [[1], [2], [3]] 2 (by omega)
    (by simp) (by simp) (by simp) (by decide)

end HybridModel
